import Mathlib

/-!
Verification of the node-waf core against its specification.

The JavaScript sources are shallowly embedded: numbers are modelled as `Rat`
(all scores in the source are exact decimals), timestamps as `Nat`
milliseconds, JS `Map`s as association lists, and mutation as explicit state
passing.  Regular expressions (always small, hand-written patterns in the
source) are embedded via a small backtracking matcher that also models the
`lastIndex` cursor of JS global regexes, since `RegExp.prototype.test` with
the `g` flag is stateful and that statefulness is part of the behaviour
under scrutiny.
-/

namespace NodeWaf

/- `Rat` arithmetic is `@[irreducible]` in Batteries, which stops `decide`
from evaluating concrete scores.  Restore the default reducibility locally so
that concrete runs of the embedded code can be settled by evaluation. -/
attribute [local semireducible] Rat.add Rat.sub Rat.mul Rat.inv

set_option maxRecDepth 40000

/-! ## JS semantics helpers -/

/-- JS `Math.round`: round half toward positive infinity. -/
def jsRound (q : ℚ) : ℤ := ⌊q + 1/2⌋

/-- JS `Math.round(x * 100) / 100`, the 2-decimal rounding used by the anomaly scorer. -/
def round2 (q : ℚ) : ℚ := (jsRound (q * 100) : ℚ) / 100

/-- A JS value that is either a boolean or a number, as produced by
`a > b || c` expressions. -/
inductive JSVal where
  | bool (b : Bool)
  | num (q : ℚ)
deriving Repr, DecidableEq

/-- JS truthiness of a `JSVal` (a number is falsy exactly when it is 0). -/
def jsTruthy : JSVal → Bool
  | .bool b => b
  | .num q => decide (q ≠ 0)

/-- JS `a > b` where `b` may be `undefined` (`x > undefined` is `false`). -/
def jsGtOpt (a : ℚ) : Option ℚ → Bool
  | none => false
  | some b => decide (b < a)

/-! ## Character classes used by the source regexes -/

/-- JS regex `\s` (whitespace), restricted to the ASCII range that can occur here. -/
def isSpaceJS (c : Char) : Bool :=
  c == ' ' || c == '\t' || c == '\n' || c == '\r' ||
  c == Char.ofNat 0x0b || c == Char.ofNat 0x0c

/-- JS regex `\w`. -/
def isWordJS (c : Char) : Bool :=
  ('a' ≤ c && c ≤ 'z') || ('A' ≤ c && c ≤ 'Z') || ('0' ≤ c && c ≤ '9') || c == '_'

/-- JS regex `\d`. -/
def isDigitJS (c : Char) : Bool := '0' ≤ c && c ≤ '9'

/-- JS regex class `[0-9a-fA-F]`. -/
def isHexJS (c : Char) : Bool :=
  isDigitJS c || ('a' ≤ c && c ≤ 'f') || ('A' ≤ c && c ≤ 'F')

/-- JS regex class `[a-f0-9]` (case-sensitive lower hex). -/
def isLowHexJS (c : Char) : Bool := isDigitJS c || ('a' ≤ c && c ≤ 'f')

/-- JS regex class `[A-Za-z0-9+/]` (base64 alphabet). -/
def isB64JS (c : Char) : Bool :=
  ('a' ≤ c && c ≤ 'z') || ('A' ≤ c && c ≤ 'Z') || isDigitJS c || c == '+' || c == '/'

/-- JS regex `.` without the `s` flag: any char except a line terminator. -/
def dotJS (c : Char) : Bool :=
  !(c == '\n' || c == '\r' || c == Char.ofNat 0x2028 || c == Char.ofNat 0x2029)

/-! ## A small regex engine

Syntax covers exactly the constructs appearing in the source patterns:
character predicates, sequencing, alternation, and greedy/lazy stars.
Bounded repetitions are expanded.  Matching is by backtracking in
continuation-passing style with a fuel argument for termination; the
alternative tried first mirrors the JS disambiguation rules (left
alternative first, greedy star tries the body first, lazy star tries the
empty iteration first), so the end position of the match found — which
becomes the new `lastIndex` — agrees with JS on these patterns. -/

inductive RE where
  | eps
  | chr (p : Char → Bool)
  | seq (a b : RE)
  | alt (a b : RE)
  | star (lazy : Bool) (r : RE)

/-- Backtracking matcher: try to match `r` against a prefix of `s`, calling the
continuation `k` on the remaining suffix; the first success (in JS priority
order) wins.  A star iteration must consume input, as in JS's empty-match
loop protection. -/
def matchRE : Nat → RE → List Char → (List Char → Option (List Char)) → Option (List Char)
  | 0, _, _, _ => none
  | _ + 1, .eps, s, k => k s
  | _ + 1, .chr p, s, k =>
      match s with
      | [] => none
      | c :: rest => if p c then k rest else none
  | fuel + 1, .seq a b, s, k => matchRE fuel a s (fun s2 => matchRE fuel b s2 k)
  | fuel + 1, .alt a b, s, k =>
      (matchRE fuel a s k).orElse (fun _ => matchRE fuel b s k)
  | fuel + 1, .star false r, s, k =>
      (matchRE fuel r s (fun s2 =>
        if s2.length < s.length then matchRE fuel (.star false r) s2 k else none)).orElse
        (fun _ => k s)
  | fuel + 1, .star true r, s, k =>
      (k s).orElse (fun _ =>
        matchRE fuel r s (fun s2 =>
          if s2.length < s.length then matchRE fuel (.star true r) s2 k else none))

/-- Size of a regex, used to compute a sufficient fuel. -/
def reSize : RE → Nat
  | .eps => 1
  | .chr _ => 1
  | .seq a b => reSize a + reSize b + 1
  | .alt a b => reSize a + reSize b + 1
  | .star _ r => reSize r + 1

/-- Fuel that is ample for the small patterns and texts of this development. -/
def reFuel (r : RE) (s : List Char) : Nat := (s.length + 2) * (reSize r + 2) * 4 + 64

/-- Try to match `r` at successive start positions of `suffix` (whose first
character sits at absolute position `pos`); on success return the absolute
end position of the match, i.e. the value JS assigns to `lastIndex`. -/
def reSearchAux (r : RE) : List Char → Nat → Option Nat
  | suffix, pos =>
      match matchRE (reFuel r suffix) r suffix some with
      | some rest => some (pos + (suffix.length - rest.length))
      | none =>
          match suffix with
          | [] => none
          | _ :: t => reSearchAux r t (pos + 1)

/-- First match of `r` in `cs` at or after position `i`: end position. -/
def reSearchFrom (r : RE) (cs : List Char) (i : Nat) : Option Nat :=
  if i > cs.length then none
  else reSearchAux r (cs.drop i) i

/-- JS `regex.test(text)` for a regex with the `g` flag: search from
`lastIndex`; on success return `true` and the new `lastIndex` (the end of the
match), on failure return `false` and reset `lastIndex` to 0.  A `lastIndex`
beyond the text also fails and resets. -/
def testG (r : RE) (cs : List Char) (lastIndex : Nat) : Bool × Nat :=
  match reSearchFrom r cs lastIndex with
  | some e => (true, e)
  | none => (false, 0)

/-- JS `regex.test(text)` after `regex.lastIndex = 0`, or for a regex without
the `g` flag: a pure match test. -/
def reTest (r : RE) (cs : List Char) : Bool :=
  (reSearchFrom r cs 0).isSome

/-- JS `^...$` anchored full-string test (used by `isEncoded`'s base64 check). -/
def reFullMatch (r : RE) (cs : List Char) : Bool :=
  (matchRE (reFuel r cs) r cs (fun rest => if rest.isEmpty then some [] else none)).isSome

/-! ### Regex construction helpers -/

/-- Sequence a list of regexes. -/
def reSeqList (rs : List RE) : RE := rs.foldr RE.seq RE.eps

/-- Literal string (each character matched exactly). -/
def reOfStr (s : String) : RE := reSeqList (s.data.map (fun c => RE.chr (fun d => d == c)))

/-- Greedy `*`. -/
def reStarG (r : RE) : RE := RE.star false r

/-- Lazy `*?`. -/
def reStarL (r : RE) : RE := RE.star true r

/-- Greedy `+`. -/
def rePlusG (r : RE) : RE := RE.seq r (reStarG r)

/-- Greedy `?` (try one occurrence first). -/
def reOpt (r : RE) : RE := RE.alt r RE.eps

/-- Exactly `n` repetitions. -/
def reRep : Nat → RE → RE
  | 0, _ => RE.eps
  | n + 1, r => RE.seq r (reRep n r)

/-- At least `n` repetitions (greedy), JS `{n,}`. -/
def reAtLeast (n : Nat) (r : RE) : RE := RE.seq (reRep n r) (reStarG r)

/-- JS `{0,2}` (greedy: two, then one, then zero). -/
def reUpTo2 (r : RE) : RE := RE.alt (RE.seq r r) (RE.alt r RE.eps)

/-- Shorthand for `\s*`. -/
def wsStar : RE := reStarG (RE.chr isSpaceJS)

/-- Shorthand for `\s+`. -/
def wsPlus : RE := rePlusG (RE.chr isSpaceJS)

/-- Shorthand for `[^>]*`. -/
def notGtStar : RE := reStarG (RE.chr (fun c => c != '>'))

/-- Shorthand for `.*` (greedy). -/
def dotStarG : RE := reStarG (RE.chr dotJS)

/-- Shorthand for `.*?` (lazy). -/
def dotStarL : RE := reStarL (RE.chr dotJS)

/-! ## JS string helpers -/

/-- Lowercase a character list (JS `toLowerCase`, ASCII range). -/
def lowerCL (cs : List Char) : List Char := cs.map Char.toLower

/-- Whether `pat` occurs starting exactly at the head of `hay`. -/
def headMatch : List Char → List Char → Bool
  | [], _ => true
  | _ :: _, [] => false
  | a :: as, b :: bs => a == b && headMatch as bs

/-- JS `hay.includes(pat)` on character lists. -/
def containsCL (pat : List Char) : List Char → Bool
  | [] => headMatch pat []
  | c :: rest => headMatch pat (c :: rest) || containsCL pat rest

/-- JS `hay.includes(pat)` on strings. -/
def jsIncludes (hay pat : String) : Bool := containsCL pat.data hay.data

/-- JS `toLowerCase` on strings (ASCII range). -/
def lowerStr (s : String) : String := ⟨lowerCL s.data⟩

/-- JS `path.startsWith(prefixStr)`. -/
def jsStartsWith (s p : String) : Bool := headMatch p.data s.data

/-- JS `Array.prototype.join(" ")`. -/
def joinSpace : List String → String
  | [] => ""
  | [s] => s
  | s :: rest => s ++ " " ++ joinSpace rest

/-! ## Data model (src/lib/core/middleware `analyzeRequest`, §3 of the spec)

Query, header and cookie values in Express can be non-strings; the sources
guard every scan with `typeof value === 'string'`.  `JVal` models that
distinction.  A structured body is represented by its `JSON.stringify`
serialization, which is the only view the sources ever take of it. -/

inductive JVal where
  | str (s : String)
  | other
deriving Repr, DecidableEq

/-- Request body: absent, a string, or a structured object (carried as its
`JSON.stringify` serialization). -/
inductive BodyVal where
  | str (s : String)
  | obj (json : String)
deriving Repr, DecidableEq

/-- A matched threat (xss.js / rate-limit threats). -/
structure Threat where
  type : String
  pattern : String
  description : String
  score : ℚ
  matched : String
deriving Repr, DecidableEq

/-- Result of a detection module's `analyze` (`{ score, threats, module }`). -/
structure ModuleResult where
  score : ℚ
  threats : List Threat
  module : String
deriving Repr, DecidableEq

/-- One contributing factor of the anomaly score. -/
structure Factor where
  type : String
  score : ℚ
deriving Repr, DecidableEq

/-- The AnalysisRecord built by `WAFMiddleware.analyzeRequest` and threaded
through modules, anomaly scorer and rule engine.  `hour` and `dayOfWeek`
stand for `timestamp.getHours()` / `getDay()` of the wall clock. -/
structure Analysis where
  timestampMs : Nat := 0
  hour : Nat := 12
  dayOfWeek : Nat := 3
  ip : String := ""
  userAgent : String := ""
  method : String := "GET"
  path : String := "/"
  query : List (String × JVal) := []
  body : Option BodyVal := none
  headers : List (String × JVal) := []
  cookies : List (String × JVal) := []
  score : ℚ := 0
  threats : List Threat := []
  modules : List String := []
  anomalyScore : ℚ := 0
  anomalyFactors : List Factor := []
  isAnomaly : JSVal := .bool false
  confidence : ℚ := 0
deriving Repr, DecidableEq

/-- String values of an association list (JS `Object.values` + string guard). -/
def strValues (m : List (String × JVal)) : List String :=
  m.filterMap (fun kv => match kv.2 with | .str s => some s | .other => none)

/-- `extractSearchTexts` — identical code in rule-engine.js (lines 189-228)
and xss.js (lines 255-294): path, string query values, body (serialized if
structured), string header values, string cookie values. -/
def extractSearchTexts (a : Analysis) : List String :=
  [a.path] ++ strValues a.query ++
  (match a.body with
   | some (.str s) => [s]
   | some (.obj j) => [j]
   | none => []) ++
  strValues a.headers ++ strValues a.cookies

/-- `text.substring(0, 100) + (text.length > 100 ? '...' : '')`. -/
def excerpt (t : String) : String :=
  (⟨t.data.take 100⟩ : String) ++ (if t.length > 100 then "..." else "")

/-! ## XSS module (src/lib/modules/xss.js)

Every pattern carries the `gi` flags in the source, so matching is
case-insensitive (input lowered, patterns written lowercase) and stateful:
the per-instance `lastIndex` cursor survives between `analyze` calls because
`XSSModule.analyze` never resets it. -/

namespace XSSModule

/-- One entry of `loadXSSPatterns`. -/
structure XssPattern where
  name : String
  pattern : RE
  score : ℚ
  description : String

/-- The 27 patterns of `loadXSSPatterns`, transcribed in order. -/
def xssPatterns : List XssPattern :=
  [ ⟨"script-tag",
      reSeqList [reOfStr "<script", notGtStar, reOfStr ">", dotStarL, reOfStr "</script>"],
      3, "Script tag injection"⟩,
    ⟨"script-src",
      reSeqList [reOfStr "<script", notGtStar, reOfStr "src", wsStar, reOfStr "="],
      2, "External script source"⟩,
    ⟨"onload-event", reSeqList [reOfStr "onload", wsStar, reOfStr "="],
      2, "onload event handler"⟩,
    ⟨"onclick-event", reSeqList [reOfStr "onclick", wsStar, reOfStr "="],
      2, "onclick event handler"⟩,
    ⟨"onerror-event", reSeqList [reOfStr "onerror", wsStar, reOfStr "="],
      2, "onerror event handler"⟩,
    ⟨"javascript-url", reOfStr "javascript:", 3, "JavaScript URL scheme"⟩,
    ⟨"vbscript-url", reOfStr "vbscript:", 3, "VBScript URL scheme"⟩,
    ⟨"expression", reSeqList [reOfStr "expression", wsStar, reOfStr "("],
      2, "CSS expression"⟩,
    ⟨"iframe-src",
      reSeqList [reOfStr "<iframe", notGtStar, reOfStr "src", wsStar, reOfStr "="],
      2, "Iframe with external source"⟩,
    ⟨"object-data",
      reSeqList [reOfStr "<object", notGtStar, reOfStr "data", wsStar, reOfStr "="],
      2, "Object with external data"⟩,
    ⟨"embed-src",
      reSeqList [reOfStr "<embed", notGtStar, reOfStr "src", wsStar, reOfStr "="],
      2, "Embed with external source"⟩,
    ⟨"form-action",
      reSeqList [reOfStr "<form", notGtStar, reOfStr "action", wsStar, reOfStr "="],
      1, "Form with action attribute"⟩,
    ⟨"meta-refresh",
      reSeqList [reOfStr "<meta", notGtStar, reOfStr "http-equiv", wsStar, reOfStr "=",
        wsStar, RE.chr (fun c => c == '"' || c == Char.ofNat 39), reOfStr "refresh",
        RE.chr (fun c => c == '"' || c == Char.ofNat 39)],
      2, "Meta refresh redirect"⟩,
    ⟨"base-href",
      reSeqList [reOfStr "<base", notGtStar, reOfStr "href", wsStar, reOfStr "="],
      2, "Base tag with href"⟩,
    ⟨"link-href",
      reSeqList [reOfStr "<link", notGtStar, reOfStr "href", wsStar, reOfStr "="],
      1, "Link with href attribute"⟩,
    ⟨"style-tag",
      reSeqList [reOfStr "<style", notGtStar, reOfStr ">", dotStarL, reOfStr "</style>"],
      1, "Style tag injection"⟩,
    ⟨"alert-payload", reSeqList [reOfStr "alert", wsStar, reOfStr "("],
      2, "Alert function call"⟩,
    ⟨"confirm-payload", reSeqList [reOfStr "confirm", wsStar, reOfStr "("],
      2, "Confirm function call"⟩,
    ⟨"prompt-payload", reSeqList [reOfStr "prompt", wsStar, reOfStr "("],
      2, "Prompt function call"⟩,
    ⟨"document-cookie", reOfStr "document.cookie", 3, "Document cookie access"⟩,
    ⟨"document-write", reOfStr "document.write", 2, "Document write"⟩,
    ⟨"innerHTML", reSeqList [reOfStr "innerhtml", wsStar, reOfStr "="],
      2, "innerHTML assignment"⟩,
    ⟨"outerHTML", reSeqList [reOfStr "outerhtml", wsStar, reOfStr "="],
      2, "outerHTML assignment"⟩,
    ⟨"html-encoded",
      reSeqList [reOfStr "&#", reOpt (RE.chr (fun c => c == 'x')),
        rePlusG (RE.chr isLowHexJS), reOfStr ";"],
      1, "HTML encoded characters"⟩,
    ⟨"url-encoded", reSeqList [reOfStr "%", reRep 2 (RE.chr isLowHexJS)],
      1, "URL encoded characters"⟩,
    ⟨"svg-script",
      reSeqList [reOfStr "<svg", notGtStar, reOfStr ">", dotStarL, reOfStr "<script"],
      3, "SVG with script tag"⟩,
    ⟨"data-uri-javascript",
      reSeqList [reOfStr "data:text/html", dotStarG, reOfStr "javascript"],
      3, "Data URI with JavaScript"⟩ ]

/-- Scan every search text with one pattern, threading its `lastIndex`
(the inner `searchTexts.forEach` of `analyze`). -/
def scanTexts (p : XssPattern) (li : Nat) : List String → List Threat × ℚ × Nat
  | [] => ([], 0, li)
  | t :: rest =>
      let r1 := testG p.pattern (lowerCL t.data) li
      let r2 := scanTexts p r1.2 rest
      if r1.1 then
        (⟨"xss", p.name, p.description, p.score, excerpt t⟩ :: r2.1, r2.2.1 + p.score, r2.2.2)
      else r2

/-- Scan all patterns (the outer `this.patterns.forEach`), threading the
vector of `lastIndex` cursors, one per pattern. -/
def scanPatterns : List XssPattern → List Nat → List String → List Threat × ℚ × List Nat
  | [], _, _ => ([], 0, [])
  | p :: ps, states, texts =>
      let r1 := scanTexts p (states.headD 0) texts
      let r2 := scanPatterns ps states.tail texts
      (r1.1 ++ r2.1, r1.2.1 + r2.2.1, r1.2.2 :: r2.2.2)

/-- `checkCombinations`: pure substring checks on the joined, lowercased text. -/
def checkCombinations (searchTexts : List String) : List Threat :=
  let text := lowerStr (joinSpace searchTexts)
  (if jsIncludes text "<script" && (jsIncludes text "alert" || jsIncludes text "document") then
    [⟨"xss", "script-suspicious-content", "Script tag with suspicious content", 4,
      "Script tag with alert/document access"⟩]
   else []) ++
  (if (jsIncludes text "onclick" || jsIncludes text "onload") && jsIncludes text "javascript:" then
    [⟨"xss", "event-handler-javascript", "Event handler with JavaScript URL", 4,
      "Event handler with JavaScript URL"⟩]
   else []) ++
  (if jsIncludes text "&#x" && (jsIncludes text "script" || jsIncludes text "alert") then
    [⟨"xss", "encoded-payload", "Encoded XSS payload", 3, "Encoded XSS payload detected"⟩]
   else [])

/-- `XSSModule.analyze` (xss.js lines 213-250): stateful in the pattern
cursors, returns the module result (or `null` when nothing matched) and the
new cursor vector. -/
def analyze (states : List Nat) (a : Analysis) : Option ModuleResult × List Nat :=
  let texts := extractSearchTexts a
  let scan := scanPatterns xssPatterns states texts
  let combos := checkCombinations texts
  let threats := scan.1 ++ combos
  let totalScore := scan.2.1 + (combos.map Threat.score).sum
  if threats.isEmpty then (none, scan.2.2)
  else (some ⟨totalScore, threats, "xss"⟩, scan.2.2)

/-- Initial cursor vector: a fresh `RegExp` has `lastIndex = 0`. -/
def initStates : List Nat := xssPatterns.map (fun _ => 0)

end XSSModule

/-! ## Rule engine (src/lib/core/rule-engine.js) -/

namespace RuleEngine

/-- A flat rule as held in `this.rules`.  `ci` records whether the compiled
pattern carries the `i` flag (all built-in rules use `gi`).  The
human-readable `reason` string and the impure `requestId` of the source are
not modelled; no claim concerns them. -/
structure Rule where
  id : String
  name : String
  pattern : RE
  ci : Bool := true
  score : ℚ
  module : String
  description : String

/-- The six rules of `loadBuiltInRules`. -/
def builtInRules : List Rule :=
  [ ⟨"xss-script-tag", "XSS Script Tag Detection",
      reSeqList [reOfStr "<script", notGtStar, reOfStr ">", dotStarL, reOfStr "</script>"],
      true, 3, "xss", "Detects script tag injection attempts"⟩,
    ⟨"xss-javascript-url", "XSS JavaScript URL Detection", reOfStr "javascript:",
      true, 2, "xss", "Detects javascript: URL schemes"⟩,
    ⟨"sqli-union", "SQL Union Injection",
      reSeqList [reOfStr "union", wsPlus, reOfStr "select"],
      true, 4, "sqli", "Detects UNION SELECT injection attempts"⟩,
    ⟨"sqli-or-1-1", "SQL OR 1=1 Injection",
      reSeqList [reOfStr "or", wsPlus, reOfStr "1", wsStar, reOfStr "=", wsStar, reOfStr "1"],
      true, 3, "sqli", "Detects OR 1=1 injection attempts"⟩,
    ⟨"sqli-drop-table", "SQL DROP TABLE Injection",
      reSeqList [reOfStr "drop", wsPlus, reOfStr "table"],
      true, 5, "sqli", "Detects DROP TABLE injection attempts"⟩,
    ⟨"nosqli-operator", "NoSQL Operator Injection",
      RE.alt (reOfStr "$where") (RE.alt (reOfStr "$ne") (RE.alt (reOfStr "$gt")
        (RE.alt (reOfStr "$lt") (reOfStr "$regex")))),
      true, 3, "nosqli", "Detects NoSQL operator injection"⟩ ]

/-- `evaluateRule` (lines 175-184): the engine resets `lastIndex` to 0 before
every `test`, so rule matching is a pure predicate. -/
def evaluateRule (r : Rule) (a : Analysis) : Bool :=
  (extractSearchTexts a).any (fun t =>
    reTest r.pattern (if r.ci then lowerCL t.data else t.data))

/-- `allow` / `block`. -/
inductive Action where
  | allow
  | block
deriving Repr, DecidableEq

/-- The result object built by `evaluate`. -/
structure EvalResult where
  action : Action
  score : ℚ
  matchedRules : List Rule

/-- The body of the `this.rules.forEach` loop in `evaluate`: a matching rule
is appended to `matchedRules` and its score added to the running total. -/
def evalStep (a : Analysis) (acc : EvalResult) (rule : Rule) : EvalResult :=
  if evaluateRule rule a then
    { acc with matchedRules := acc.matchedRules ++ [rule], score := acc.score + rule.score }
  else acc

/-- `RuleEngine.evaluate` (lines 138-170): seed the result with the incoming
score, check the threshold, accumulate matched flat rules, check the
threshold again. -/
def evaluate (threshold : ℚ) (rules : List Rule) (a : Analysis) : EvalResult :=
  let r0 : EvalResult := ⟨.allow, a.score, []⟩
  let r1 : EvalResult := if a.score ≥ threshold then { r0 with action := .block } else r0
  let r2 : EvalResult := rules.foldl (evalStep a) r1
  if r2.score ≥ threshold then { r2 with action := .block } else r2

end RuleEngine

/-! ## JS `Map` as an association list (insertion order preserved) -/

/-- `Map.get` / plain object property lookup. -/
def lookupA {κ α : Type} [DecidableEq κ] (m : List (κ × α)) (k : κ) : Option α :=
  match m with
  | [] => none
  | (k2, v) :: rest => if k2 = k then some v else lookupA rest k

/-- `Map.set`: overwrite in place, or append preserving insertion order. -/
def setA {κ α : Type} [DecidableEq κ] (m : List (κ × α)) (k : κ) (v : α) : List (κ × α) :=
  match m with
  | [] => [(k, v)]
  | (k2, v2) :: rest => if k2 = k then (k, v) :: rest else (k2, v2) :: setA rest k v

/-- `Map.delete`. -/
def removeA {κ α : Type} [DecidableEq κ] (m : List (κ × α)) (k : κ) : List (κ × α) :=
  match m with
  | [] => []
  | (k2, v2) :: rest => if k2 = k then rest else (k2, v2) :: removeA rest k

/-! ## Configuration (src/lib/core/config-manager.js `getDefaultConfig`)

`anomalyThreshold` has no entry in the default configuration, so it is
`undefined` unless the user supplies it: it is modelled as `Option ℚ` and
compared with JS comparison semantics (`x > undefined` is `false`). -/

structure Config where
  enabled : Bool := true
  dryRun : Bool := false
  threshold : ℚ := 10
  modules : List String := ["xss", "sqli"]
  adaptiveLearning : Bool := false
  learningPeriod : Nat := 7
  skipPaths : List String := ["/health", "/metrics", "/favicon.ico"]
  anomalyThreshold : Option ℚ := none

/-- Wall-clock values read inside the pipeline (`Date.now()`, `getHours()`,
`getDay()`); passed explicitly since they are inputs, not state. -/
structure WallClock where
  ms : Nat := 0
  hour : Nat := 12
  day : Nat := 3
deriving Repr, DecidableEq

/-! ## Anomaly scorer (src/lib/core/anomaly-scorer.js) -/

namespace AnomalyScorer

/-- Per-IP rolling-window record (`{ count, window }`). -/
structure FreqRec where
  count : Nat
  window : Nat
deriving Repr, DecidableEq

/-- `this.baseline`.  `headerPatterns` is initialized in the source but never
read or written afterwards and is omitted. -/
structure Baseline where
  requestFrequency : List (String × FreqRec) := []
  userAgentPatterns : List (String × Nat) := []
  pathPatterns : List (String × Nat) := []
  queryPatterns : List (String × Nat) := []
  bodySizePatterns : List (Nat × Nat) := []
deriving Repr, DecidableEq

/-- Scorer instance state: the baseline plus its own `isLearning` flag
(initially `true`; a timer clears it when adaptive learning is enabled). -/
structure ScorerState where
  baseline : Baseline := {}
  isLearning : Bool := true
deriving Repr, DecidableEq

/-- `calculateAverageRequestsPerWindow`. -/
def averageRequestsPerWindow (b : Baseline) : ℚ :=
  let total : ℚ := (b.requestFrequency.map (fun kv => (kv.2.count : ℚ))).sum
  if b.requestFrequency.length > 0 then total / (b.requestFrequency.length : ℚ) else 0

/-- `calculateAverageBodySize`. -/
def averageBodySize (b : Baseline) : ℚ :=
  let totalCount : ℚ := (b.bodySizePatterns.map (fun kv => (kv.2 : ℚ))).sum
  if totalCount = 0 then 0
  else ((b.bodySizePatterns.map (fun kv => ((kv.1 : ℚ) * (kv.2 : ℚ)))).sum) / totalCount

/-- `calculateFrequencyAnomaly` (lines 125-154): inserts/updates the per-IP
window record and scores the excess over 2× the per-IP average. -/
def calculateFrequencyAnomaly (b : Baseline) (a : Analysis) (nowMs : Nat) : ℚ × Baseline :=
  let windowMs := 5 * 60 * 1000
  let m0 := match lookupA b.requestFrequency a.ip with
            | none => setA b.requestFrequency a.ip ⟨0, nowMs⟩
            | some _ => b.requestFrequency
  let r0 := (lookupA m0 a.ip).getD ⟨0, nowMs⟩
  let r1 := if nowMs - r0.window > windowMs then ({ count := 0, window := nowMs } : FreqRec) else r0
  let r2 : FreqRec := { r1 with count := r1.count + 1 }
  let m2 := setA m0 a.ip r2
  let b2 := { b with requestFrequency := m2 }
  let expectedMax := averageRequestsPerWindow b2 * 2
  let score := if (r2.count : ℚ) > expectedMax then
      min (((r2.count : ℚ) - expectedMax) * (1/2)) 10 else 0
  (score, b2)

/-- The `botPatterns` literals (each `/…/i`, i.e. case-insensitive substring). -/
def botPatterns : List String :=
  ["bot", "crawler", "spider", "scraper", "curl", "wget", "python", "java",
   "postman", "insomnia"]

/-- `isKnownBot`: case-sensitive `includes`. -/
def isKnownBot (userAgent : String) : Bool :=
  ["Googlebot", "Bingbot", "Slurp", "DuckDuckBot", "Baiduspider", "YandexBot",
   "facebookexternalhit"].any (fun bot => jsIncludes userAgent bot)

/-- `isEncoded`: anchored base64 shape, URL-encoded byte, or HTML entity
(all case-sensitive regexes in the source). -/
def isEncoded (s : String) : Bool :=
  reFullMatch (RE.seq (rePlusG (RE.chr isB64JS)) (reUpTo2 (RE.chr (fun c => c == '=')))) s.data ||
  reTest (reSeqList [reOfStr "%", reRep 2 (RE.chr isHexJS)]) s.data ||
  reTest (reSeqList [reOfStr "&#", reOpt (RE.chr (fun c => c == 'x')),
    rePlusG (RE.chr isHexJS), reOfStr ";"]) s.data

/-- `calculateUserAgentAnomaly` (lines 159-196). -/
def calculateUserAgentAnomaly (b : Baseline) (a : Analysis) : ℚ :=
  let ua := a.userAgent
  if ua = "" || ua.length < 10 then 3
  else
    let isBot := botPatterns.any (fun p => jsIncludes (lowerStr ua) p)
    if isBot && !isKnownBot ua then 2
    else if ua.length > 500 then 4
    else
      let freq : ℚ := ((lookupA b.userAgentPatterns ua).getD 0 : ℚ)
      let total : ℚ := (b.userAgentPatterns.map (fun kv => (kv.2 : ℚ))).sum
      if total > 0 && freq / total < 1/100 then 1 else 0

/-- The suspicious path regexes of `calculatePathAnomaly` (all case-sensitive). -/
def suspiciousPathPatterns : List RE :=
  [ reOfStr "..",
    reOfStr "/admin", reOfStr "/wp-admin", reOfStr "/phpmyadmin",
    reOfStr ".env", reOfStr ".git", reOfStr ".svn",
    reSeqList [reOfStr "/api/v", rePlusG (RE.chr isDigitJS), reOfStr "/", dotStarG,
      reOfStr "/", dotStarG, reOfStr "/", dotStarG],
    reSeqList [reOfStr "/", reAtLeast 32 (RE.chr isLowHexJS)],
    reSeqList [reOfStr "/", reAtLeast 20 (RE.chr isB64JS), reUpTo2 (RE.chr (fun c => c == '='))] ]

/-- `calculatePathAnomaly` (lines 201-238). -/
def calculatePathAnomaly (b : Baseline) (a : Analysis) : ℚ :=
  if suspiciousPathPatterns.any (fun r => reTest r a.path.data) then 2
  else if a.path.length > 200 then 1
  else
    let freq : ℚ := ((lookupA b.pathPatterns a.path).getD 0 : ℚ)
    let total : ℚ := (b.pathPatterns.map (fun kv => (kv.2 : ℚ))).sum
    if total > 0 && freq / total < 5/1000 then 1 else 0

/-- The suspicious query parameter names. -/
def suspiciousParams : List String :=
  ["cmd", "exec", "eval", "system", "shell", "file", "path", "dir", "root",
   "admin", "password", "passwd", "pwd", "secret", "token", "key", "auth", "login"]

/-- `calculateQueryAnomaly` (lines 243-277): +2 per suspicious key name,
+1 per over-long string value, +1 per encoded string value, capped at 5. -/
def calculateQueryAnomaly (a : Analysis) : ℚ :=
  if a.query.isEmpty then 0
  else
    let score := a.query.foldl (fun acc kv =>
      let nameHit : ℚ :=
        if suspiciousParams.any (fun p => jsIncludes (lowerStr kv.1) p) then 2 else 0
      let lenHit : ℚ := match kv.2 with
        | .str v => if v.length > 1000 then 1 else 0
        | .other => 0
      let encHit : ℚ := match kv.2 with
        | .str v => if isEncoded v then 1 else 0
        | .other => 0
      acc + nameHit + lenHit + encHit) 0
    min score 5

/-- Body size as the source computes it (string length, or length of the
JSON serialization for a structured body). -/
def bodySizeOf : Option BodyVal → Nat
  | some (.str s) => s.length
  | some (.obj j) => j.length
  | none => 0

/-- `calculateBodySizeAnomaly` (lines 282-302). -/
def calculateBodySizeAnomaly (b : Baseline) (a : Analysis) : ℚ :=
  let bodySize : ℚ := (bodySizeOf a.body : ℚ)
  let maxBodySize := averageBodySize b * 3
  if bodySize > maxBodySize then min ((bodySize - maxBodySize) / 1000) 5 else 0

/-- JS truthiness of a header value (`!headers[h]`): absent or the empty
string is falsy, a non-empty string or a non-string value is truthy. -/
def headerTruthy (v : Option JVal) : Bool :=
  match v with
  | none => false
  | some (.str s) => s ≠ ""
  | some .other => true

/-- `calculateHeaderAnomaly` (lines 307-334). -/
def calculateHeaderAnomaly (a : Analysis) : ℚ :=
  let commonHeaders := ["user-agent", "accept", "accept-language"]
  let missing := commonHeaders.filter (fun h => !headerTruthy (lookupA a.headers h))
  let base : ℚ := if missing.length > 1 then 2 else 0
  let score := a.headers.foldl (fun acc kv =>
    match kv.2 with
    | .str v =>
        acc + (if v.length > 500 then (1:ℚ) else 0) +
          (if isEncoded v && v.length > 100 then (1:ℚ) else 0)
    | .other => acc) base
  min score 3

/-- `calculateTimeAnomaly` (lines 339-355), reading the wall clock. -/
def calculateTimeAnomaly (clock : WallClock) : ℚ :=
  if 2 ≤ clock.hour ∧ clock.hour ≤ 6 then 1
  else if clock.day = 0 ∨ clock.day = 6 then 1/2
  else 0

/-- `calculateGeographicAnomaly`: always 0. -/
def calculateGeographicAnomaly (_ : Analysis) : ℚ := 0

/-- `calculateConfidence`. -/
def calculateConfidence (factors : List Factor) : ℚ :=
  if factors.isEmpty then 0
  else
    let total := (factors.map Factor.score).sum
    min (total / (factors.length : ℚ) * (1/10)) 1

/-- The repeated `if (score > 0) { totalScore += score; factors.push(…) }`
block of `calculateScore`. -/
def addFactor (acc : ℚ × List Factor) (ty : String) (sc : ℚ) : ℚ × List Factor :=
  if sc > 0 then (acc.1 + sc, acc.2 ++ [⟨ty, sc⟩]) else acc

/-- The result object of `calculateScore`.  `isAnomaly` is kept as the JS
value actually produced by `totalScore > this.config.anomalyThreshold || 5`:
by JS precedence this is `(totalScore > anomalyThreshold) || 5`, i.e. the
boolean `true` on exceedance and the (truthy) number `5` otherwise. -/
structure ScoreResult where
  totalScore : ℚ
  factors : List Factor
  isAnomaly : JSVal
  confidence : ℚ
deriving Repr, DecidableEq

/-- `calculateScore` (lines 44-120).  The short-circuit returns zero when the
configured anomaly threshold exceeds 100 (`undefined > 100` is `false`, so an
absent threshold does not short-circuit). -/
def calculateScore (cfg : Config) (st : ScorerState) (a : Analysis) (clock : WallClock) :
    ScoreResult × ScorerState :=
  if (match cfg.anomalyThreshold with | none => false | some t => decide (t > 100)) then
    (⟨0, [], .bool false, 0⟩, st)
  else
    let fr := calculateFrequencyAnomaly st.baseline a clock.ms
    let b1 := fr.2
    let acc0 : ℚ × List Factor := (0, [])
    let acc1 := addFactor acc0 "frequency" fr.1
    let acc2 := addFactor acc1 "userAgent" (calculateUserAgentAnomaly b1 a)
    let acc3 := addFactor acc2 "path" (calculatePathAnomaly b1 a)
    let acc4 := addFactor acc3 "query" (calculateQueryAnomaly a)
    let acc5 := addFactor acc4 "bodySize" (calculateBodySizeAnomaly b1 a)
    let acc6 := addFactor acc5 "header" (calculateHeaderAnomaly a)
    let acc7 := addFactor acc6 "time" (calculateTimeAnomaly clock)
    let acc8 := addFactor acc7 "geographic" (calculateGeographicAnomaly a)
    let totalScore := acc8.1
    let factors := acc8.2
    (⟨round2 totalScore, factors,
      (if jsGtOpt totalScore cfg.anomalyThreshold then .bool true else .num 5),
      calculateConfidence factors⟩,
     { st with baseline := b1 })

/-- Increment an association-list counter (`map.get(k) || 0` then `set`). -/
def bumpA {κ : Type} [DecidableEq κ] (m : List (κ × Nat)) (k : κ) : List (κ × Nat) :=
  setA m k ((lookupA m k).getD 0 + 1)

/-- `updateBaseline` (lines 382-427): no-op once the scorer's own learning
flag is cleared. -/
def updateBaseline (st : ScorerState) (a : Analysis) (nowMs : Nat) : ScorerState :=
  if !st.isLearning then st
  else
    let b := st.baseline
    let freq0 := match lookupA b.requestFrequency a.ip with
                 | none => setA b.requestFrequency a.ip ⟨0, nowMs⟩
                 | some _ => b.requestFrequency
    let r0 := (lookupA freq0 a.ip).getD ⟨0, nowMs⟩
    let freq1 := setA freq0 a.ip { r0 with count := r0.count + 1 }
    let ua1 := if a.userAgent ≠ "" then bumpA b.userAgentPatterns a.userAgent
               else b.userAgentPatterns
    let path1 := bumpA b.pathPatterns a.path
    let query1 := a.query.foldl (fun m kv => bumpA m kv.1) b.queryPatterns
    let bodySize := bodySizeOf a.body
    let body1 := if bodySize > 0 then bumpA b.bodySizePatterns bodySize
                 else b.bodySizePatterns
    { st with baseline :=
        { requestFrequency := freq1, userAgentPatterns := ua1, pathPatterns := path1,
          queryPatterns := query1, bodySizePatterns := body1 } }

end AnomalyScorer

/-! ## Adaptive learning (src/lib/core/adaptive-learning.js)

The phase analytics (`analyzeCollectedData`, `adaptRules`) only populate
report data (`patterns`, `normalBehavior`, `anomalyThresholds`,
`adaptations`) that nothing in the decision path reads; they are not
modelled.  The phase machine, the request/threat buffers and the learning
flag — everything the claims quantify over — are modelled in full. -/

namespace AdaptiveLearning

/-- The request snapshot pushed by `recordRequest`. -/
structure ReqData where
  timestampMs : Nat
  ip : String
  userAgent : String
  method : String
  path : String
  query : List (String × JVal)
  body : Option BodyVal
  headers : List (String × JVal)
  cookies : List (String × JVal)
  score : ℚ
  threats : List Threat
  modules : List String
deriving Repr, DecidableEq

/-- Project an AnalysisRecord to the snapshot `recordRequest` stores. -/
def toReqData (a : Analysis) : ReqData :=
  ⟨a.timestampMs, a.ip, a.userAgent, a.method, a.path, a.query, a.body,
   a.headers, a.cookies, a.score, a.threats, a.modules⟩

/-- The threat snapshot pushed by `recordRequest`. -/
structure ThreatRec where
  timestampMs : Nat
  ip : String
  threats : List Threat
  score : ℚ
deriving Repr, DecidableEq

/-- `this.learningData` (buffers and progress). -/
structure LearningData where
  requests : List ReqData := []
  threats : List ThreatRec := []
  learningProgress : ℚ := 0
deriving Repr, DecidableEq

/-- The four learning phases. -/
inductive Phase where
  | collecting
  | analyzing
  | adapting
  | protecting
deriving Repr, DecidableEq

/-- `AdaptiveLearning` instance state. -/
structure ALState where
  isLearning : Bool
  currentPhase : Phase
  startTimeMs : Nat
  endTimeMs : Nat
  learningData : LearningData
deriving Repr, DecidableEq

/-- The constructor (lines 5-38): learning iff `config.adaptiveLearning`;
initial phase Collecting when learning, else Protecting. -/
def init (cfg : Config) (nowMs : Nat) : ALState :=
  let isL := cfg.adaptiveLearning
  { isLearning := isL,
    currentPhase := if isL then .collecting else .protecting,
    startTimeMs := nowMs,
    endTimeMs := nowMs + cfg.learningPeriod * 24 * 60 * 60 * 1000,
    learningData := {} }

/-- `recordRequest` (lines 124-156): push the snapshot, keep only the last
10 000 requests (`slice(-10000)`), and push a threat snapshot when the
record carries threats — with no cap on the threat buffer. -/
def recordRequest (d : LearningData) (a : Analysis) : LearningData :=
  let reqs := d.requests ++ [toReqData a]
  let reqs2 := if reqs.length > 10000 then reqs.drop (reqs.length - 10000) else reqs
  let ths := if !a.threats.isEmpty then d.threats ++ [⟨a.timestampMs, a.ip, a.threats, a.score⟩]
             else d.threats
  { d with requests := reqs2, threats := ths }

/-- `updateLearningProgress`. -/
def updateLearningProgress (st : ALState) (nowMs : Nat) : ALState :=
  let totalDuration : ℚ := (st.endTimeMs : ℚ) - (st.startTimeMs : ℚ)
  let elapsed : ℚ := (nowMs : ℚ) - (st.startTimeMs : ℚ)
  { st with learningData :=
      { st.learningData with learningProgress := min (elapsed / totalDuration) 1 } }

/-- The result object of `processRequest`: always `allow`. -/
structure LearnResult where
  action : RuleEngine.Action := .allow
  reason : String
  learningPhase : Option Phase := none
  progress : Option ℚ := none
deriving Repr, DecidableEq

/-- `processRequest` (lines 101-119). -/
def processRequest (st : ALState) (a : Analysis) (nowMs : Nat) : LearnResult × ALState :=
  if !st.isLearning then
    (⟨.allow, "Not in learning mode", none, none⟩, st)
  else
    let st2 := { st with learningData := recordRequest st.learningData a }
    let st3 := updateLearningProgress st2 nowMs
    (⟨.allow, "Learning mode - collecting data", some st3.currentPhase,
      some st3.learningData.learningProgress⟩, st3)

/-- `finalizeLearning` (lines 404-415): clear the learning flag, pin progress. -/
def finalizeLearning (st : ALState) : ALState :=
  { st with isLearning := false,
            learningData := { st.learningData with learningProgress := 1 } }

/-- `transitionToPhase` (lines 79-96); entering Protecting finalizes. -/
def transitionToPhase (st : ALState) (p : Phase) : ALState :=
  let st2 := { st with currentPhase := p }
  match p with
  | .protecting => finalizeLearning st2
  | _ => st2

end AdaptiveLearning

/-! ## Rate-limit / IP-block module (src/unnamed/part_000) -/

namespace RateLimitModule

/-- The configuration slice the module reads (defaults from its constructor). -/
structure RLConfig where
  enabled : Bool := false
  windowMs : Nat := 900000
  max : Nat := 100
  ipBlockingEnabled : Bool := false
  blockDuration : Nat := 86400000
  maxViolations : Nat := 5
deriving Repr, DecidableEq

/-- Per-IP window record (`{ count, firstRequest, violations }`). -/
structure RateRec where
  count : Nat
  firstRequest : Nat
  violations : Nat
deriving Repr, DecidableEq

/-- Block-table record (`{ blockedUntil, reason, blockedAt }`). -/
structure BlockRec where
  blockedUntil : Nat
  reason : String
  blockedAt : Nat
deriving Repr, DecidableEq

/-- The module's two tables. -/
structure RLState where
  requests : List (String × RateRec) := []
  blockedIPs : List (String × BlockRec) := []
deriving Repr, DecidableEq

/-- `isIPBlocked` (lines 113-127): blocked while `now ≤ blockedUntil`
(the source tests `now > blockedUntil` for expiry); an expired entry is
deleted on access. -/
def isIPBlocked (st : RLState) (ip : String) (nowMs : Nat) : Bool × RLState :=
  match lookupA st.blockedIPs ip with
  | none => (false, st)
  | some rec =>
      if nowMs > rec.blockedUntil then
        (false, { st with blockedIPs := removeA st.blockedIPs ip })
      else (true, st)

/-- `blockIP` (lines 132-142): insert into the block table and drop the
per-IP window record. -/
def blockIP (cfg : RLConfig) (st : RLState) (ip : String) (reason : String) (nowMs : Nat) :
    RLState :=
  { requests := removeA st.requests ip,
    blockedIPs := setA st.blockedIPs ip ⟨nowMs + cfg.blockDuration, reason, nowMs⟩ }

/-- `unblockIP` (lines 147-149). -/
def unblockIP (st : RLState) (ip : String) : RLState :=
  { st with blockedIPs := removeA st.blockedIPs ip }

/-- The window bookkeeping at the top of the unblocked path of `analyze`:
fetch or create the per-IP record, reset it when the window has expired, and
increment the request count. -/
def nextRec (cfg : RLConfig) (st1 : RLState) (ip : String) (nowMs : Nat) : RateRec :=
  let r0 := (lookupA st1.requests ip).getD ⟨0, nowMs, 0⟩
  let r1 := if nowMs - r0.firstRequest > cfg.windowMs then
              ({ count := 0, firstRequest := nowMs, violations := 0 } : RateRec)
            else r0
  { r1 with count := r1.count + 1 }

/-- `analyze` (lines 29-108). -/
def analyze (cfg : RLConfig) (st : RLState) (a : Analysis) (nowMs : Nat) :
    Option ModuleResult × RLState :=
  if !cfg.enabled then (none, st)
  else
    let ip := a.ip
    let ib := isIPBlocked st ip nowMs
    let st1 := ib.2
    if ib.1 then
      (some ⟨10, [⟨"ratelimit", "ip-blocked",
        "IP address is blocked due to rate limiting violations", 10,
        "IP " ++ ip ++ " is blocked"⟩], "ratelimit"⟩, st1)
    else
      let r2 : RateRec := nextRec cfg st1 ip nowMs
      if r2.count > cfg.max then
        let r3 : RateRec := { r2 with violations := r2.violations + 1 }
        if cfg.ipBlockingEnabled && r3.violations ≥ cfg.maxViolations then
          let st2 := { st1 with requests := setA st1.requests ip r3 }
          let st3 := blockIP cfg st2 ip "Rate limit violations exceeded" nowMs
          (some ⟨10, [⟨"ratelimit", "ip-blocked-violations",
            "IP blocked due to repeated rate limit violations", 10,
            "IP " ++ ip ++ " blocked after " ++ toString r3.violations ++ " violations"⟩],
            "ratelimit"⟩, st3)
        else
          (some ⟨5, [⟨"ratelimit", "rate-limit-exceeded",
            "Rate limit exceeded: " ++ toString r3.count ++ "/" ++ toString cfg.max ++
              " requests in window", 5,
            "Rate limit exceeded: " ++ toString r3.count ++ "/" ++ toString cfg.max⟩],
            "ratelimit"⟩, { st1 with requests := setA st1.requests ip r3 })
      else (none, { st1 with requests := setA st1.requests ip r2 })

/-- `cleanup` (lines 246-262): evict expired windows and expired blocks. -/
def cleanup (cfg : RLConfig) (st : RLState) (nowMs : Nat) : RLState :=
  { requests := st.requests.filter (fun kv => !(nowMs - kv.2.firstRequest > cfg.windowMs)),
    blockedIPs := st.blockedIPs.filter (fun kv => !(nowMs > kv.2.blockedUntil)) }

end RateLimitModule

/-! ## WAF middleware (src/lib/core/middleware, second half of config-manager source) -/

namespace WAFMiddleware

/-- The raw request as the framework hands it over; `ip` stands for the
resolved client IP (the extractor is out of scope per §4.1/§1 of the spec). -/
structure Req where
  ip : String := ""
  userAgent : String := ""
  method : String := "GET"
  path : String := "/"
  query : List (String × JVal) := []
  body : Option BodyVal := none
  headers : List (String × JVal) := []
  cookies : List (String × JVal) := []
deriving Repr, DecidableEq

/-- Middleware instance state.  `mwIsLearningMode` is `this.isLearningMode`,
computed once in the constructor (line 255) and never updated afterwards.
The stats collector and metrics registry are not modelled: they never
influence the decision. -/
structure WafState where
  cfg : Config
  mwIsLearningMode : Bool
  adaptive : AdaptiveLearning.ALState
  scorer : AnomalyScorer.ScorerState
  xssStates : List Nat

/-- The constructor: `this.isLearningMode = config.adaptiveLearning &&
this.adaptiveLearning.isLearning`. -/
def WAFinit (cfg : Config) (nowMs : Nat) : WafState :=
  let al := AdaptiveLearning.init cfg nowMs
  { cfg := cfg,
    mwIsLearningMode := cfg.adaptiveLearning && al.isLearning,
    adaptive := al,
    scorer := {},
    xssStates := XSSModule.initStates }

/-- `shouldSkipPath`. -/
def shouldSkipPath (cfg : Config) (path : String) : Bool :=
  cfg.skipPaths.any (fun sp => jsStartsWith path sp)

/-- One step of the `config.modules.forEach` loop of `analyzeRequest`:
`analysis.score += result.score; threats/modules appended`. -/
def applyModuleResult (a : Analysis) (name : String) (res : Option ModuleResult) : Analysis :=
  match res with
  | some mr => { a with score := a.score + mr.score,
                        threats := a.threats ++ mr.threats,
                        modules := a.modules ++ [name] }
  | none => a

/-- The module loop with the registry of this development, which contains
the XSS module; a configured name with no loaded module is skipped
(`if (module)`), so theorems below instantiate `cfg.modules := ["xss"]`. -/
def runModules (names : List String) (a : Analysis) (xs : List Nat) : Analysis × List Nat :=
  names.foldl (fun (acc : Analysis × List Nat) name =>
    if name = "xss" then
      let (res, xs2) := XSSModule.analyze acc.2 acc.1
      (applyModuleResult acc.1 name res, xs2)
    else acc) (a, xs)

/-- The fresh AnalysisRecord literal at the top of `analyzeRequest`
(middleware lines 314-357). -/
def mkRecord (r : Req) (clock : WallClock) : Analysis :=
  { timestampMs := clock.ms, hour := clock.hour, dayOfWeek := clock.day,
    ip := r.ip, userAgent := r.userAgent, method := r.method, path := r.path,
    query := r.query, body := r.body, headers := r.headers, cookies := r.cookies,
    score := 0, threats := [], modules := [] }

/-- `analyzeRequest` continued: run the modules, add the anomaly score,
update the baseline. -/
def analyzeRequest (cfg : Config) (scorer : AnomalyScorer.ScorerState) (xs : List Nat)
    (r : Req) (clock : WallClock) : Analysis × AnomalyScorer.ScorerState × List Nat :=
  let a0 : Analysis := mkRecord r clock
  let rm := runModules cfg.modules a0 xs
  let a1 := rm.1
  let cs := AnomalyScorer.calculateScore cfg scorer a1 clock
  let anom := cs.1
  let a2 := { a1 with anomalyScore := anom.totalScore, anomalyFactors := anom.factors,
                      isAnomaly := anom.isAnomaly, confidence := anom.confidence,
                      score := a1.score + anom.totalScore }
  let scorer3 := AnomalyScorer.updateBaseline cs.2 a2 clock.ms
  (a2, scorer3, rm.2)

/-- Outcome of one middleware invocation (`next()` vs a 403 response). -/
inductive MwOutcome where
  | skipped
  | allowed
  | blocked
deriving Repr, DecidableEq

/-- Events emitted during one middleware invocation. -/
inductive MwEvent where
  | threatLearning
  | threatDryRun
  | requestBlocked
deriving Repr, DecidableEq

/-- `middleware()` (lines 261-309): skip-paths, analysis, the frozen
learning-mode check, then the rule-engine decision with dry-run. -/
def middlewareStep (rules : List RuleEngine.Rule) (s : WafState) (r : Req)
    (clock : WallClock) : (MwOutcome × List MwEvent) × WafState :=
  if shouldSkipPath s.cfg r.path then ((.skipped, []), s)
  else
    let ar := analyzeRequest s.cfg s.scorer s.xssStates r clock
    let a := ar.1
    let s2 := { s with scorer := ar.2.1, xssStates := ar.2.2 }
    if s.mwIsLearningMode then
      let al2 := (AdaptiveLearning.processRequest s2.adaptive a clock.ms).2
      let evs := if a.score > 0 then [MwEvent.threatLearning] else []
      ((.allowed, evs), { s2 with adaptive := al2 })
    else
      let d := RuleEngine.evaluate s.cfg.threshold rules a
      if d.action = .block then
        if s.cfg.dryRun then ((.allowed, [.threatDryRun]), s2)
        else ((.blocked, [.requestBlocked]), s2)
      else ((.allowed, []), s2)

/-- The asynchronous events that can touch the shared state: a request, one
of the three phase-transition timers (registered only when learning was
enabled at boot), and the scorer's learning-end timer (likewise). -/
inductive Ev where
  | request (r : Req) (clock : WallClock)
  | alTimer (p : AdaptiveLearning.Phase)
  | scorerTimer

/-- Apply one event to the state. -/
def stepEvent (rules : List RuleEngine.Rule) (s : WafState) : Ev → WafState
  | .request r clock => (middlewareStep rules s r clock).2
  | .alTimer p =>
      if s.cfg.adaptiveLearning then
        { s with adaptive := AdaptiveLearning.transitionToPhase s.adaptive p }
      else s
  | .scorerTimer =>
      if s.cfg.adaptiveLearning then
        { s with scorer := { s.scorer with isLearning := false } }
      else s

/-- States reachable from boot under any interleaving of requests and timers. -/
inductive Reachable (rules : List RuleEngine.Rule) (cfg : Config) (t0 : Nat) : WafState → Prop
  | boot : Reachable rules cfg t0 (WAFinit cfg t0)
  | step (s : WafState) (e : Ev) (h : Reachable rules cfg t0 s) :
      Reachable rules cfg t0 (stepEvent rules s e)

end WAFMiddleware

/-! ## Shared lemmas about the rule-engine fold -/

namespace RuleEngine

/-- The rule fold never touches the action. -/
theorem evaluate_fold_action (a : Analysis) (rules : List Rule) (acc : EvalResult) :
    (rules.foldl (evalStep a) acc).action = acc.action := by
  induction rules generalizing acc with
  | nil => rfl
  | cons r rest ih =>
      rw [List.foldl_cons]
      by_cases h : evaluateRule r a
      · rw [evalStep, if_pos h]
        exact ih _
      · rw [evalStep, if_neg h]
        exact ih _

/-- The rule fold adds exactly the scores of the matching rules. -/
theorem evaluate_fold_score (a : Analysis) (rules : List Rule) (acc : EvalResult) :
    (rules.foldl (evalStep a) acc).score
      = acc.score + ((rules.filter (fun r => evaluateRule r a)).map Rule.score).sum := by
  induction rules generalizing acc with
  | nil => simp
  | cons r rest ih =>
      rw [List.foldl_cons]
      by_cases h : evaluateRule r a
      · rw [evalStep, if_pos h, ih]
        simp [List.filter_cons, h, add_assoc]
      · rw [evalStep, if_neg h, ih]
        simp [List.filter_cons, h]

/-- Unfolded form of `evaluate`'s score. -/
theorem evaluate_score (th : ℚ) (rules : List Rule) (a : Analysis) :
    (evaluate th rules a).score
      = a.score + ((rules.filter (fun r => evaluateRule r a)).map Rule.score).sum := by
  unfold evaluate
  by_cases hth : th ≤ a.score <;>
    simp only [ge_iff_le, hth, if_true, if_false, reduceIte] <;>
    split <;>
    simpa using evaluate_fold_score a rules _

/-- An incoming score already at the threshold forces `block`, whatever the
rule set (the first threshold check is sticky). -/
theorem evaluate_block_of_ge (th : ℚ) (rules : List Rule) (a : Analysis)
    (h : th ≤ a.score) : (evaluate th rules a).action = .block := by
  unfold evaluate
  simp only [ge_iff_le, h, if_true, reduceIte]
  split
  · rfl
  · simpa using evaluate_fold_action a rules
      { (⟨.allow, a.score, []⟩ : EvalResult) with action := .block }

/-- If the incoming score is below the threshold, the final action is block
exactly when the incoming score plus the matched rule scores reaches it. -/
theorem evaluate_action_of_lt (th : ℚ) (rules : List Rule) (a : Analysis)
    (h : ¬ th ≤ a.score) :
    (evaluate th rules a).action
      = (if th ≤ a.score + ((rules.filter (fun r => evaluateRule r a)).map Rule.score).sum
         then Action.block else Action.allow) := by
  unfold evaluate
  simp only [ge_iff_le, h, if_false, reduceIte]
  have hs := evaluate_fold_score a rules (⟨.allow, a.score, []⟩ : EvalResult)
  have ha := evaluate_fold_action a rules (⟨.allow, a.score, []⟩ : EvalResult)
  simp only at hs ha
  split
  · next hge =>
      rw [hs] at hge
      rw [if_pos hge]
  · next hge =>
      rw [hs] at hge
      rw [if_neg hge, ha]

end RuleEngine

/-! ## Claims -/

open RuleEngine in
/-- C1.  `RuleEngine.evaluate` blocks iff the final aggregated score (the
record's incoming score plus the scores of all matching flat rules) reaches
the threshold, the comparison being `≥`; under the rule-set invariant of
§4.3 (every rule score is non-negative) the duplicated threshold check
before the rule scan cannot disturb this biconditional. -/
theorem C1_block_iff_threshold (th : ℚ) (rules : List Rule) (a : Analysis)
    (hr : ∀ r ∈ rules, 0 ≤ r.score) :
    (evaluate th rules a).score
        = a.score + ((rules.filter (fun r => evaluateRule r a)).map Rule.score).sum
    ∧ ((evaluate th rules a).action = .block ↔ th ≤ (evaluate th rules a).score) := by
  refine ⟨evaluate_score th rules a, ?_⟩
  have hsum : 0 ≤ ((rules.filter (fun r => evaluateRule r a)).map Rule.score).sum := by
    apply List.sum_nonneg
    intro q hq
    rcases List.mem_map.mp hq with ⟨r, hrmem, rfl⟩
    exact hr r (List.mem_of_mem_filter hrmem)
  have hscore := evaluate_score th rules a
  by_cases hth : th ≤ a.score
  · have hb := evaluate_block_of_ge th rules a hth
    rw [hb, hscore]
    simp only [true_iff]
    linarith
  · rw [evaluate_action_of_lt th rules a hth, hscore]
    by_cases hc : th ≤ a.score +
        ((rules.filter (fun r => evaluateRule r a)).map Rule.score).sum <;>
      simp [hc]

open RuleEngine in
/-- C1 witness: a concrete record carrying an XSS payload against the
built-in rule set at threshold 3. -/
theorem C1_block_iff_threshold_witness :
    (∀ r ∈ builtInRules, (0:ℚ) ≤ r.score) ∧
    ((evaluate 3 builtInRules
        { path := "/test", query := [("q", .str "<script>alert(1)</script>")] }).score
      = ({ path := "/test",
           query := [("q", .str "<script>alert(1)</script>")] } : Analysis).score +
        ((builtInRules.filter (fun r => evaluateRule r
          { path := "/test", query := [("q", .str "<script>alert(1)</script>")] })).map
            Rule.score).sum
    ∧ ((evaluate 3 builtInRules
          { path := "/test", query := [("q", .str "<script>alert(1)</script>")] }).action
        = .block
      ↔ (3:ℚ) ≤ (evaluate 3 builtInRules
          { path := "/test", query := [("q", .str "<script>alert(1)</script>")] }).score)) :=
  ⟨by decide, C1_block_iff_threshold 3 builtInRules
    { path := "/test", query := [("q", .str "<script>alert(1)</script>")] } (by decide)⟩

/-! ### C2: while the learning phase is not Protecting, nothing is blocked -/

namespace WAFMiddleware

/-- A middleware invocation leaves `cfg`, `mwIsLearningMode` and the current
learning phase untouched (it only updates the scorer baseline, the regex
cursors and the learner's buffers). -/
theorem middlewareStep_frame (rules : List RuleEngine.Rule) (s : WafState) (r : Req)
    (clock : WallClock) :
    (middlewareStep rules s r clock).2.cfg = s.cfg
    ∧ (middlewareStep rules s r clock).2.mwIsLearningMode = s.mwIsLearningMode
    ∧ (middlewareStep rules s r clock).2.adaptive.currentPhase
        = s.adaptive.currentPhase := by
  unfold middlewareStep
  split
  · exact ⟨rfl, rfl, rfl⟩
  · dsimp only
    split
    · refine ⟨rfl, rfl, ?_⟩
      unfold AdaptiveLearning.processRequest AdaptiveLearning.updateLearningProgress
      dsimp only
      split
      · rfl
      · rfl
    · split
      · split
        · exact ⟨rfl, rfl, rfl⟩
        · exact ⟨rfl, rfl, rfl⟩
      · exact ⟨rfl, rfl, rfl⟩

/-- Invariant of every reachable state: the configuration is the boot
configuration, the frozen `isLearningMode` flag equals
`config.adaptiveLearning`, and a phase other than Protecting can only occur
when adaptive learning is enabled (with learning disabled the machine boots
in Protecting and no timer is registered). -/
theorem reachable_invariant (rules : List RuleEngine.Rule) (cfg : Config) (t0 : Nat)
    (s : WafState) (h : Reachable rules cfg t0 s) :
    s.cfg = cfg
    ∧ s.mwIsLearningMode = cfg.adaptiveLearning
    ∧ (s.adaptive.currentPhase ≠ .protecting → cfg.adaptiveLearning = true) := by
  induction h with
  | boot =>
      refine ⟨rfl, ?_, ?_⟩
      · show (cfg.adaptiveLearning && (AdaptiveLearning.init cfg t0).isLearning)
            = cfg.adaptiveLearning
        unfold AdaptiveLearning.init
        exact Bool.and_self cfg.adaptiveLearning
      · intro hph
        by_contra hal
        apply hph
        show (AdaptiveLearning.init cfg t0).currentPhase = .protecting
        unfold AdaptiveLearning.init
        simp only [Bool.not_eq_true] at hal
        simp [hal]
  | step s e hs ih =>
      rcases ih with ⟨hcfg, hmode, hph2⟩
      cases e with
      | request r clock =>
          rcases middlewareStep_frame rules s r clock with ⟨h1, h2, h3⟩
          exact ⟨h1.trans hcfg, h2.trans hmode, fun hp => hph2 (h3 ▸ hp)⟩
      | alTimer p =>
          simp only [stepEvent]
          by_cases hen : s.cfg.adaptiveLearning = true
          · simp only [hen, if_true]
            exact ⟨hcfg, hmode, fun _ => hcfg ▸ hen⟩
          · simp only [hen, if_false]
            exact ⟨hcfg, hmode, hph2⟩
      | scorerTimer =>
          simp only [stepEvent]
          by_cases hen : s.cfg.adaptiveLearning = true
          · simp only [hen, if_true]
            exact ⟨hcfg, hmode, hph2⟩
          · simp only [hen, if_false]
            exact ⟨hcfg, hmode, hph2⟩

end WAFMiddleware

open WAFMiddleware in
/-- C2.  In any reachable middleware state whose learning phase is not
Protecting, the middleware never blocks a request: it either skips the path
or observes, records, and calls `next()` — regardless of the request's
threat score. -/
theorem C2_learning_never_blocks (rules : List RuleEngine.Rule) (cfg : Config)
    (t0 : Nat) (s : WafState) (hreach : Reachable rules cfg t0 s)
    (hph : s.adaptive.currentPhase ≠ .protecting) (r : Req) (clock : WallClock) :
    (middlewareStep rules s r clock).1.1 ≠ .blocked := by
  rcases reachable_invariant rules cfg t0 s hreach with ⟨_, hmode, hlearn⟩
  have hm : s.mwIsLearningMode = true := by rw [hmode]; exact hlearn hph
  unfold middlewareStep
  split
  · simp
  · rw [hm]
    simp

open WAFMiddleware in
/-- C2 witness: the boot state of a learning-enabled configuration is in the
Collecting phase, and a concrete request there is not blocked. -/
theorem C2_learning_never_blocks_witness :
    ((WAFinit { adaptiveLearning := true, modules := ["xss"] } 0).adaptive.currentPhase
        ≠ AdaptiveLearning.Phase.protecting)
    ∧ (middlewareStep [] (WAFinit { adaptiveLearning := true, modules := ["xss"] } 0)
        { ip := "1.2.3.4", path := "/x",
          query := [("q", .str "<script>alert(1)</script>")] } ⟨0, 12, 3⟩).1.1
      ≠ MwOutcome.blocked :=
  ⟨by decide,
   C2_learning_never_blocks [] { adaptiveLearning := true, modules := ["xss"] } 0
     (WAFinit { adaptiveLearning := true, modules := ["xss"] } 0) Reachable.boot
     (by decide)
     { ip := "1.2.3.4", path := "/x", query := [("q", .str "<script>alert(1)</script>")] }
     ⟨0, 12, 3⟩⟩

/-! ### C3: the learning period never actually ends for the middleware

`WAFMiddleware` computes `this.isLearningMode` once, in its constructor, and
`middleware()` consults that frozen flag on every request.  When the three
phase timers have fired — phase `Protecting`, learner `isLearning = false` —
the flag is still `true`, so the request still takes the learning path and
is allowed, although the rule engine would block it. -/

/-- The configuration of the learning-mode scenario (spec §8 scenario 6):
adaptive learning on, 7-day period, XSS module, threshold 5; the anomaly
scorer is disabled through its documented `> 100` test switch. -/
def learnCfg : Config :=
  { adaptiveLearning := true, threshold := 5, modules := ["xss"],
    anomalyThreshold := some 1000 }

/-- The XSS request of the scenario. -/
def learnReq : WAFMiddleware.Req :=
  { ip := "1.2.3.4", userAgent := "Mozilla/5.0 (test browser)", path := "/api/search",
    query := [("q", .str "<script>alert(\"xss\")</script>")] }

/-- Boot state at t = 0. -/
def learnS0 : WAFMiddleware.WafState := WAFMiddleware.WAFinit learnCfg 0

/-- State after the first (t = 0) request. -/
def learnS1 : WAFMiddleware.WafState :=
  (WAFMiddleware.middlewareStep RuleEngine.builtInRules learnS0 learnReq ⟨0, 12, 3⟩).2

/-- State after the three phase timers and the scorer timer have all fired
(past the end of the 7-day learning period). -/
def learnS5 : WAFMiddleware.WafState :=
  WAFMiddleware.stepEvent RuleEngine.builtInRules
    (WAFMiddleware.stepEvent RuleEngine.builtInRules
      (WAFMiddleware.stepEvent RuleEngine.builtInRules
        (WAFMiddleware.stepEvent RuleEngine.builtInRules learnS1 (.alTimer .analyzing))
        (.alTimer .adapting))
      (.alTimer .protecting))
    .scorerTimer

/-- Wall clock just after the 7-day learning period (7 d = 604 800 000 ms). -/
def learnClock2 : WallClock := ⟨604800001, 12, 3⟩

/-- The AnalysisRecord of the repeated payload sent after the period. -/
def learnAnalysis2 : Analysis :=
  (WAFMiddleware.analyzeRequest learnCfg learnS5.scorer learnS5.xssStates learnReq
    learnClock2).1

open WAFMiddleware in
/-- C3.  At t = 0 the XSS payload is allowed and a `threat-detected` event of
type `learning` is emitted, as the claim says; but after the learning period
has fully elapsed (phase `Protecting`, learner finalized) the same payload is
STILL allowed through the learning path — the frozen `isLearningMode` flag is
never recomputed — although the rule engine verdict on the very record of
that request is `block` for every rule set.  Enforcement never begins, so
the second half of the claim fails on the code. -/
theorem C3_enforcement_never_begins :
    (middlewareStep RuleEngine.builtInRules learnS0 learnReq ⟨0, 12, 3⟩).1
        = (.allowed, [.threatLearning])
    ∧ learnS5.adaptive.currentPhase = .protecting
    ∧ learnS5.adaptive.isLearning = false
    ∧ learnS5.mwIsLearningMode = true
    ∧ (middlewareStep RuleEngine.builtInRules learnS5 learnReq learnClock2).1
        = (.allowed, [.threatLearning])
    ∧ learnAnalysis2.score = 9
    ∧ ∀ rules : List RuleEngine.Rule,
        (RuleEngine.evaluate learnCfg.threshold rules learnAnalysis2).action = .block := by
  refine ⟨by decide, by decide, by decide, by decide, by decide, by decide, ?_⟩
  intro rules
  apply RuleEngine.evaluate_block_of_ge
  show learnCfg.threshold ≤ learnAnalysis2.score
  decide

/-! ### C4: the `isAnomaly` predicate is never the claimed boolean

`isAnomaly: totalScore > this.config.anomalyThreshold || 5` parses as
`(totalScore > anomalyThreshold) || 5`: the boolean `true` on exceedance,
otherwise the number `5` — which is truthy.  So `isAnomaly` can never be
falsy (outside the `> 100` short-circuit), contradicting
`isAnomaly = totalScore > configuredAnomalyThreshold`. -/

/-- Configuration with the anomaly threshold present and set to its
documented default 5 (not above 100, so the scorer is active). -/
def anomCfg : Config := { modules := ["xss"], anomalyThreshold := some 5 }

/-- A benign record: a normal browser user-agent, all three common headers
present, plain path, no query, no body. -/
def benignRecord : Analysis :=
  { ip := "9.9.9.9", userAgent := "Mozilla/5.0 Gecko Firefox", path := "/",
    headers := [("user-agent", .str "Mozilla/5.0 Gecko Firefox"),
                ("accept", .str "text!html"), ("accept-language", .str "en~US")] }

open AnomalyScorer in
/-- C4.  On a benign record the computed total anomaly score is 0, which does
not exceed the configured threshold 5, yet the scorer returns
`isAnomaly = 5` — a truthy JS value — where the claim (and §4.5 of the spec)
requires `false`.  JS precedence makes the source's
`totalScore > anomalyThreshold || 5` evaluate to `(totalScore >
anomalyThreshold) || 5`, so `isAnomaly` is truthy on every scored request. -/
theorem C4_isAnomaly_always_truthy :
    (calculateScore anomCfg {} benignRecord ⟨0, 12, 3⟩).1.totalScore = 0
    ∧ jsGtOpt (calculateScore anomCfg {} benignRecord ⟨0, 12, 3⟩).1.totalScore
        anomCfg.anomalyThreshold = false
    ∧ (calculateScore anomCfg {} benignRecord ⟨0, 12, 3⟩).1.isAnomaly = .num 5
    ∧ jsTruthy (calculateScore anomCfg {} benignRecord ⟨0, 12, 3⟩).1.isAnomaly = true := by
  refine ⟨by decide, by decide, by decide, by decide⟩

/-! ### C5: what the pipeline score is actually made of -/

namespace XSSModule

/-- One pattern's text scan contributes a non-negative score. -/
theorem scanTexts_score_nonneg (p : XssPattern) (hp : 0 ≤ p.score) (ts : List String) :
    ∀ li, 0 ≤ (scanTexts p li ts).2.1 := by
  induction ts with
  | nil => intro li; simp [scanTexts]
  | cons t rest ih =>
      intro li
      simp only [scanTexts]
      split
      · exact add_nonneg (ih _) hp
      · exact ih _

/-- The pattern scan contributes a non-negative score. -/
theorem scanPatterns_score_nonneg (ps : List XssPattern) (hp : ∀ p ∈ ps, 0 ≤ p.score) :
    ∀ states texts, 0 ≤ (scanPatterns ps states texts).2.1 := by
  induction ps with
  | nil => intro s t; simp [scanPatterns]
  | cons p rest ih =>
      intro s t
      simp only [scanPatterns]
      exact add_nonneg (scanTexts_score_nonneg p (hp p (by simp)) t (s.headD 0))
        (ih (fun q hq => hp q (by simp [hq])) s.tail t)

/-- Combination threats carry non-negative scores. -/
theorem checkCombinations_score_nonneg (texts : List String) :
    0 ≤ ((checkCombinations texts).map Threat.score).sum := by
  have hmem : ∀ t ∈ checkCombinations texts, 0 ≤ t.score := by
    intro t ht
    simp only [checkCombinations] at ht
    rcases List.mem_append.mp ht with h | h
    · rcases List.mem_append.mp h with h2 | h2
      · split at h2
        · rw [List.mem_singleton] at h2; subst h2; norm_num
        · exact absurd h2 (List.not_mem_nil t)
      · split at h2
        · rw [List.mem_singleton] at h2; subst h2; norm_num
        · exact absurd h2 (List.not_mem_nil t)
    · split at h
      · rw [List.mem_singleton] at h; subst h; norm_num
      · exact absurd h (List.not_mem_nil t)
  apply List.sum_nonneg
  intro q hq
  rcases List.mem_map.mp hq with ⟨t, ht, rfl⟩
  exact hmem t ht

/-- Every score the XSS module returns is non-negative. -/
theorem analyze_score_nonneg (xs : List Nat) (a : Analysis) (mr : ModuleResult)
    (h : (analyze xs a).1 = some mr) : 0 ≤ mr.score := by
  unfold analyze at h
  dsimp only at h
  split at h
  · exact absurd h (by simp)
  · rw [Option.some.injEq] at h
    rw [← h]
    exact add_nonneg
      (scanPatterns_score_nonneg xssPatterns (by decide) xs (extractSearchTexts a))
      (checkCombinations_score_nonneg (extractSearchTexts a))

end XSSModule

namespace AnomalyScorer

/-- `addFactor` never decreases the running total. -/
theorem addFactor_fst_nonneg (acc : ℚ × List Factor) (ty : String) (sc : ℚ)
    (h : 0 ≤ acc.1) : 0 ≤ (addFactor acc ty sc).1 := by
  unfold addFactor
  split
  · next hgt => exact add_nonneg h (le_of_lt hgt)
  · exact h

/-- Two-decimal rounding preserves non-negativity. -/
theorem round2_nonneg (q : ℚ) (h : 0 ≤ q) : 0 ≤ round2 q := by
  unfold round2 jsRound
  apply div_nonneg _ (by norm_num)
  have h2 : (0:ℤ) ≤ ⌊q * 100 + 1/2⌋ := Int.le_floor.mpr (by push_cast; linarith)
  exact_mod_cast h2

/-- The anomaly total score is always non-negative (each factor is only
added when strictly positive). -/
theorem calculateScore_totalScore_nonneg (cfg : Config) (st : ScorerState) (a : Analysis)
    (clock : WallClock) : 0 ≤ (calculateScore cfg st a clock).1.totalScore := by
  unfold calculateScore
  split
  · simp
  · dsimp only
    apply round2_nonneg
    apply addFactor_fst_nonneg
    apply addFactor_fst_nonneg
    apply addFactor_fst_nonneg
    apply addFactor_fst_nonneg
    apply addFactor_fst_nonneg
    apply addFactor_fst_nonneg
    apply addFactor_fst_nonneg
    apply addFactor_fst_nonneg
    exact le_refl 0

end AnomalyScorer

/-- The AnalysisRecord of the C5 counterexample: an IP with no user-agent and
no headers, analyzed by the pipeline with the XSS module and the anomaly
scorer active (threshold 5). -/
def anomAnalysis : Analysis :=
  (WAFMiddleware.analyzeRequest anomCfg {} XSSModule.initStates
    { ip := "9.9.9.9", userAgent := "", path := "/a" } ⟨0, 12, 3⟩).1

/-- C5 counterexample.  On a request with an empty user-agent and no headers,
no module contributes (`modules = []`) and no flat rule matches, yet the
rule-engine score of the pipeline record is 5 — the anomaly score — so the
claimed equation `score = matched rule scores + module scores` fails
(5 ≠ 0 + 0). -/
theorem C5_counterexample_anomaly_in_score :
    anomAnalysis.modules = []
    ∧ ((RuleEngine.builtInRules.filter
          (fun r => RuleEngine.evaluateRule r anomAnalysis)).map RuleEngine.Rule.score).sum
        = 0
    ∧ anomAnalysis.anomalyScore = 5
    ∧ (RuleEngine.evaluate 10 RuleEngine.builtInRules anomAnalysis).score = 5
    ∧ (RuleEngine.evaluate 10 RuleEngine.builtInRules anomAnalysis).score ≠ 0 + 0 := by
  refine ⟨by decide, by decide, by decide, by decide, by decide⟩

open WAFMiddleware RuleEngine in
/-- C5 amended.  For every request, scorer state and cursor state, with the
module registry holding the XSS module, the rule-engine score of the pipeline
record equals the module score plus the anomaly total score plus the matched
flat rule scores; and under the §4.3 invariant (rule scores non-negative) it
is non-negative. -/
theorem C5_score_decomposition (cfg : Config) (scorer : AnomalyScorer.ScorerState)
    (xs : List Nat) (r : Req) (clock : WallClock) (th : ℚ) (rules : List Rule)
    (hm : cfg.modules = ["xss"]) (hr : ∀ ru ∈ rules, 0 ≤ ru.score) :
    ((analyzeRequest cfg scorer xs r clock).1.score
        = ((XSSModule.analyze xs (mkRecord r clock)).1.elim 0 ModuleResult.score)
          + (analyzeRequest cfg scorer xs r clock).1.anomalyScore)
    ∧ ((evaluate th rules (analyzeRequest cfg scorer xs r clock).1).score
        = ((XSSModule.analyze xs (mkRecord r clock)).1.elim 0 ModuleResult.score)
          + (analyzeRequest cfg scorer xs r clock).1.anomalyScore
          + ((rules.filter
              (fun ru => evaluateRule ru (analyzeRequest cfg scorer xs r clock).1)).map
                Rule.score).sum)
    ∧ 0 ≤ (evaluate th rules (analyzeRequest cfg scorer xs r clock).1).score := by
  have hdecomp :
      (analyzeRequest cfg scorer xs r clock).1.score
        = ((XSSModule.analyze xs (mkRecord r clock)).1.elim 0 ModuleResult.score)
          + (analyzeRequest cfg scorer xs r clock).1.anomalyScore := by
    unfold analyzeRequest runModules
    rw [hm]
    rcases hx : (XSSModule.analyze xs (mkRecord r clock)).1 with _ | mr <;>
      simp [hx, applyModuleResult] <;> simp [mkRecord]
  have hnn0 : 0 ≤ ((XSSModule.analyze xs (mkRecord r clock)).1.elim 0 ModuleResult.score) := by
    rcases hx : (XSSModule.analyze xs (mkRecord r clock)).1 with _ | mr
    · simp
    · simpa using XSSModule.analyze_score_nonneg xs (mkRecord r clock) mr hx
  have hanom : 0 ≤ (analyzeRequest cfg scorer xs r clock).1.anomalyScore := by
    unfold analyzeRequest
    exact AnomalyScorer.calculateScore_totalScore_nonneg cfg scorer _ clock
  have hsum : 0 ≤ ((rules.filter
      (fun ru => evaluateRule ru (analyzeRequest cfg scorer xs r clock).1)).map
        Rule.score).sum := by
    apply List.sum_nonneg
    intro q hq
    rcases List.mem_map.mp hq with ⟨ru, hmem, rfl⟩
    exact hr ru (List.mem_of_mem_filter hmem)
  have hev := evaluate_score th rules (analyzeRequest cfg scorer xs r clock).1
  refine ⟨hdecomp, by rw [hev, hdecomp], ?_⟩
  rw [hev, hdecomp]
  have := add_nonneg (add_nonneg hnn0 hanom) hsum
  linarith

open WAFMiddleware RuleEngine in
/-- C5 witness: the decomposition applied to the counterexample request at
threshold 10 with the built-in rules. -/
theorem C5_score_decomposition_witness :
    anomCfg.modules = ["xss"]
    ∧ (∀ ru ∈ builtInRules, (0:ℚ) ≤ ru.score)
    ∧ 0 ≤ (evaluate 10 builtInRules anomAnalysis).score :=
  ⟨by decide, by decide,
   (C5_score_decomposition anomCfg {} XSSModule.initStates
     { ip := "9.9.9.9", userAgent := "", path := "/a" } ⟨0, 12, 3⟩ 10 builtInRules
     (by decide) (by decide)).2.2⟩

/-! ### Association-list lemmas (JS `Map` semantics) -/

section AssocLemmas

variable {κ α : Type} [DecidableEq κ]

theorem lookupA_setA_self (m : List (κ × α)) (k : κ) (v : α) :
    lookupA (setA m k v) k = some v := by
  induction m with
  | nil => simp [setA, lookupA]
  | cons kv rest ih =>
      by_cases h : kv.1 = k
      · simp [setA, lookupA, h]
      · simp [setA, lookupA, h, ih]

theorem lookupA_setA_ne (m : List (κ × α)) (k k2 : κ) (v : α) (h : k2 ≠ k) :
    lookupA (setA m k v) k2 = lookupA m k2 := by
  induction m with
  | nil => simp [setA, lookupA, Ne.symm h]
  | cons kv rest ih =>
      by_cases h1 : kv.1 = k
      · simp [setA, lookupA, h1, h, Ne.symm h]
      · by_cases h2 : kv.1 = k2 <;> simp [setA, lookupA, h1, h2, h, Ne.symm h, ih]

theorem lookupA_removeA_ne (m : List (κ × α)) (k k2 : κ) (h : k2 ≠ k) :
    lookupA (removeA m k) k2 = lookupA m k2 := by
  induction m with
  | nil => simp [removeA, lookupA]
  | cons kv rest ih =>
      by_cases h1 : kv.1 = k
      · simp [removeA, lookupA, h1, h, Ne.symm h]
      · by_cases h2 : kv.1 = k2 <;> simp [removeA, lookupA, h1, h2, h, Ne.symm h, ih]

theorem lookupA_none_not_mem (m : List (κ × α)) (k : κ) :
    lookupA m k = none ↔ k ∉ m.map Prod.fst := by
  induction m with
  | nil => simp [lookupA]
  | cons kv rest ih =>
      by_cases h : kv.1 = k
      · simp [lookupA, h]
      · simp [lookupA, h, Ne.symm h, ih]

theorem lookupA_removeA_self (m : List (κ × α)) (k : κ)
    (hnd : (m.map Prod.fst).Nodup) : lookupA (removeA m k) k = none := by
  induction m with
  | nil => simp [removeA, lookupA]
  | cons kv rest ih =>
      rw [List.map_cons, List.nodup_cons] at hnd
      by_cases h : kv.1 = k
      · rw [removeA]
        simp only [h, if_pos]
        rw [lookupA_none_not_mem]
        rw [← h]
        exact hnd.1
      · rw [removeA]
        simp only [h, if_neg, reduceIte, lookupA]
        exact ih hnd.2

theorem lookupA_removeA_none (m : List (κ × α)) (k k2 : κ)
    (h : lookupA m k2 = none) : lookupA (removeA m k) k2 = none := by
  induction m with
  | nil => simpa [removeA] using h
  | cons kv rest ih =>
      rw [lookupA] at h
      by_cases h1 : kv.1 = k2
      · simp [h1] at h
      · rw [if_neg h1] at h
        by_cases h2 : kv.1 = k <;> simp [removeA, lookupA, h1, h2, ih h, h]

theorem lookupA_filter_none (m : List (κ × α)) (k : κ) (p : κ × α → Bool)
    (h : lookupA m k = none) : lookupA (m.filter p) k = none := by
  induction m with
  | nil => simp [lookupA]
  | cons kv rest ih =>
      rw [lookupA] at h
      by_cases h1 : kv.1 = k
      · simp [h1] at h
      · rw [if_neg h1] at h
        by_cases h2 : p kv <;> simp [List.filter_cons, h2, lookupA, h1, ih h]

theorem keys_setA_subset (m : List (κ × α)) (k : κ) (v : α) (q : κ × α)
    (hq : q ∈ setA m k v) : q.1 ∈ m.map Prod.fst ∨ q.1 = k := by
  induction m with
  | nil =>
      simp [setA] at hq
      simp [hq]
  | cons kv rest ih =>
      by_cases h2 : kv.1 = k
      · rw [setA] at hq
        simp only [h2, if_pos] at hq
        rcases List.mem_cons.mp hq with rfl | hq2
        · right; rfl
        · left
          simp only [List.map_cons, List.mem_cons]
          exact Or.inr (List.mem_map_of_mem Prod.fst hq2)
      · rw [setA] at hq
        simp only [h2, if_neg, reduceIte] at hq
        rcases List.mem_cons.mp hq with rfl | hq2
        · left; simp
        · rcases ih hq2 with hh | hh
          · left
            simp only [List.map_cons, List.mem_cons]
            exact Or.inr hh
          · right; exact hh

theorem mem_removeA_subset (m : List (κ × α)) (k : κ) (q : κ × α)
    (hq : q ∈ removeA m k) : q ∈ m := by
  induction m with
  | nil => simpa [removeA] using hq
  | cons kv rest ih =>
      by_cases h2 : kv.1 = k
      · rw [removeA] at hq
        simp only [h2, if_pos] at hq
        exact List.mem_cons_of_mem kv hq
      · rw [removeA] at hq
        simp only [h2, if_neg, reduceIte] at hq
        rcases List.mem_cons.mp hq with rfl | hq2
        · exact List.mem_cons_self _ _
        · exact List.mem_cons_of_mem kv (ih hq2)

theorem nodup_keys_setA (m : List (κ × α)) (k : κ) (v : α)
    (hnd : (m.map Prod.fst).Nodup) : ((setA m k v).map Prod.fst).Nodup := by
  induction m with
  | nil => simp [setA]
  | cons kv rest ih =>
      rw [List.map_cons, List.nodup_cons] at hnd
      by_cases h : kv.1 = k
      · rw [setA]
        simp only [h, if_pos, List.map_cons, List.nodup_cons]
        exact ⟨h ▸ hnd.1, hnd.2⟩
      · rw [setA]
        simp only [h, if_neg, reduceIte, List.map_cons, List.nodup_cons]
        refine ⟨?_, ih hnd.2⟩
        intro hmem
        rcases List.mem_map.mp hmem with ⟨q, hq, hfst⟩
        rcases keys_setA_subset rest k v q hq with hh | hh
        · exact hnd.1 (hfst ▸ hh)
        · exact h (hfst ▸ hh)

theorem nodup_keys_removeA (m : List (κ × α)) (k : κ)
    (hnd : (m.map Prod.fst).Nodup) : ((removeA m k).map Prod.fst).Nodup := by
  induction m with
  | nil => simp [removeA]
  | cons kv rest ih =>
      rw [List.map_cons, List.nodup_cons] at hnd
      by_cases h : kv.1 = k
      · rw [removeA]
        simp only [h, if_pos]
        exact hnd.2
      · rw [removeA]
        simp only [h, if_neg, reduceIte, List.map_cons, List.nodup_cons]
        refine ⟨?_, ih hnd.2⟩
        intro hmem
        rcases List.mem_map.mp hmem with ⟨q, hq, hfst⟩
        exact hnd.1
          (hfst ▸ List.mem_map_of_mem Prod.fst (mem_removeA_subset rest k q hq))

theorem nodup_keys_filter (m : List (κ × α)) (p : κ × α → Bool)
    (hnd : (m.map Prod.fst).Nodup) : ((m.filter p).map Prod.fst).Nodup :=
  List.Nodup.sublist (List.Sublist.map Prod.fst (List.filter_sublist m)) hnd

end AssocLemmas

/-! ### C6: blocked-IP predicate and expiry -/

/-- A block table with one entry expiring exactly at t = 1000. -/
def c6State : RateLimitModule.RLState :=
  { blockedIPs := [("1.2.3.4", ⟨1000, "manual", 900⟩)] }

/-- C6 counterexample.  At `now = blockedUntil` (1000) the module reports the
IP as blocked although no entry satisfies `blockedUntil > now`: the source
treats an entry as live while `now ≤ blockedUntil`, so the claimed
biconditional with strict `>` fails at the boundary. -/
theorem C6_counterexample_boundary :
    (RateLimitModule.isIPBlocked c6State "1.2.3.4" 1000).1 = true
    ∧ ∀ kv ∈ c6State.blockedIPs, ¬ (1000 < kv.2.blockedUntil) := by
  refine ⟨by decide, by decide⟩

open RateLimitModule in
/-- C6 amended.  An IP is reported blocked iff a block-table entry exists
with `blockedUntil ≥ now` (the source expires strictly after `blockedUntil`);
and once `now > blockedUntil`, the very `isIPBlocked` call removes the
expired entry and reports not blocked. -/
theorem C6_blocked_iff_entry_live (st : RLState) (ip : String) (nowMs : Nat)
    (hnd : (st.blockedIPs.map Prod.fst).Nodup) :
    ((isIPBlocked st ip nowMs).1 = true
      ↔ ∃ rec, lookupA st.blockedIPs ip = some rec ∧ nowMs ≤ rec.blockedUntil)
    ∧ (∀ rec, lookupA st.blockedIPs ip = some rec → nowMs > rec.blockedUntil →
        (isIPBlocked st ip nowMs).1 = false
        ∧ lookupA (isIPBlocked st ip nowMs).2.blockedIPs ip = none) := by
  unfold isIPBlocked
  rcases h : lookupA st.blockedIPs ip with _ | rec
  · simp [h]
  · by_cases hexp : nowMs > rec.blockedUntil
    · simp only [hexp, if_pos]
      constructor
      · simp only [Bool.false_eq_true, false_iff]
        rintro ⟨rec2, hrec2, hle⟩
        injection hrec2 with he
        subst he
        omega
      · intro rec2 hrec2 _
        injection hrec2 with he
        subst he
        exact ⟨by trivial, lookupA_removeA_self st.blockedIPs ip hnd⟩
    · simp only [hexp, if_neg, reduceIte]
      constructor
      · simp only [true_iff]
        exact ⟨rec, rfl, by omega⟩
      · intro rec2 hrec2 hgt
        injection hrec2 with he
        subst he
        omega

open RateLimitModule in
/-- C6 witness: the amended statement applied to the one-entry table, both at
the boundary instant and after expiry. -/
theorem C6_blocked_iff_entry_live_witness :
    ((c6State.blockedIPs.map Prod.fst).Nodup)
    ∧ ((isIPBlocked c6State "1.2.3.4" 1001).1 = false
        ∧ lookupA (isIPBlocked c6State "1.2.3.4" 1001).2.blockedIPs "1.2.3.4" = none) :=
  ⟨by decide,
   (C6_blocked_iff_entry_live c6State "1.2.3.4" 1001 (by decide)).2
     ⟨1000, "manual", 900⟩ (by decide) (by decide)⟩

/-! ### C7: the rate table and the block table never overlap -/

namespace RateLimitModule

/-- JS `Map` well-formedness: each key appears at most once per table. -/
def keysNodup (st : RLState) : Prop :=
  (st.requests.map Prod.fst).Nodup ∧ (st.blockedIPs.map Prod.fst).Nodup

/-- No IP is simultaneously in the rate table and the block table. -/
def noOverlap (st : RLState) : Prop :=
  ∀ ip, lookupA st.requests ip = none ∨ lookupA st.blockedIPs ip = none

/-- `isIPBlocked` leaves the rate table alone and at most deletes one
block-table entry. -/
theorem isIPBlocked_state (st : RLState) (ip : String) (nowMs : Nat) :
    (isIPBlocked st ip nowMs).2.requests = st.requests
    ∧ ((isIPBlocked st ip nowMs).2.blockedIPs = st.blockedIPs
       ∨ (isIPBlocked st ip nowMs).2.blockedIPs = removeA st.blockedIPs ip) := by
  unfold isIPBlocked
  rcases h : lookupA st.blockedIPs ip with _ | rec
  · simp
  · by_cases hexp : nowMs > rec.blockedUntil
    · simp [hexp]
    · simp [hexp]

/-- `isIPBlocked` preserves the two invariants. -/
theorem isIPBlocked_preserves (st : RLState) (ip : String) (nowMs : Nat)
    (hk : keysNodup st) (ho : noOverlap st) :
    keysNodup (isIPBlocked st ip nowMs).2 ∧ noOverlap (isIPBlocked st ip nowMs).2 := by
  rcases isIPBlocked_state st ip nowMs with ⟨hr, hb | hb⟩
  · constructor
    · exact ⟨hr ▸ hk.1, hb ▸ hk.2⟩
    · intro ip2
      rw [hr, hb]
      exact ho ip2
  · constructor
    · exact ⟨hr ▸ hk.1, hb ▸ nodup_keys_removeA st.blockedIPs ip hk.2⟩
    · intro ip2
      rw [hr, hb]
      rcases ho ip2 with hn | hn
      · exact Or.inl hn
      · exact Or.inr (lookupA_removeA_none _ _ _ hn)

/-- After a negative `isIPBlocked`, the IP has no live block-table entry. -/
theorem isIPBlocked_false_none (st : RLState) (ip : String) (nowMs : Nat)
    (hk : keysNodup st) (hfalse : (isIPBlocked st ip nowMs).1 = false) :
    lookupA (isIPBlocked st ip nowMs).2.blockedIPs ip = none := by
  unfold isIPBlocked at hfalse ⊢
  rcases h : lookupA st.blockedIPs ip with _ | rec
  · exact h
  · rw [h] at hfalse
    by_cases hexp : nowMs > rec.blockedUntil
    · simp only [hexp]
      exact lookupA_removeA_self st.blockedIPs ip hk.2
    · simp [hexp] at hfalse

/-- Writing a rate record for an unblocked IP preserves the invariants. -/
theorem setReq_preserves (st1 : RLState) (ip : String) (r : RateRec)
    (hk : keysNodup st1) (ho : noOverlap st1)
    (hnone : lookupA st1.blockedIPs ip = none) :
    keysNodup { st1 with requests := setA st1.requests ip r }
    ∧ noOverlap { st1 with requests := setA st1.requests ip r } := by
  refine ⟨⟨nodup_keys_setA _ _ _ hk.1, hk.2⟩, ?_⟩
  intro ip2
  by_cases h : ip2 = ip
  · subst h
    exact Or.inr hnone
  · rcases ho ip2 with hn | hn
    · left
      show lookupA (setA st1.requests ip r) ip2 = none
      rw [lookupA_setA_ne _ _ _ _ h]
      exact hn
    · exact Or.inr hn

/-- `blockIP` preserves the invariants (it moves the IP to the block table
and deletes its rate record). -/
theorem blockIP_preserves (cfg : RLConfig) (st : RLState) (ip reason : String)
    (nowMs : Nat) (hk : keysNodup st) (ho : noOverlap st) :
    keysNodup (blockIP cfg st ip reason nowMs)
    ∧ noOverlap (blockIP cfg st ip reason nowMs) := by
  unfold blockIP
  refine ⟨⟨nodup_keys_removeA _ _ hk.1, nodup_keys_setA _ _ _ hk.2⟩, ?_⟩
  intro ip2
  by_cases h : ip2 = ip
  · subst h
    exact Or.inl (lookupA_removeA_self _ _ hk.1)
  · rcases ho ip2 with hn | hn
    · exact Or.inl (lookupA_removeA_none _ _ _ hn)
    · right
      show lookupA (setA st.blockedIPs ip _) ip2 = none
      rw [lookupA_setA_ne _ _ _ _ h]
      exact hn

/-- `analyze` preserves the invariants. -/
theorem analyze_preserves (cfg : RLConfig) (st : RLState) (a : Analysis) (nowMs : Nat)
    (hk : keysNodup st) (ho : noOverlap st) :
    keysNodup (analyze cfg st a nowMs).2 ∧ noOverlap (analyze cfg st a nowMs).2 := by
  unfold analyze
  split
  · exact ⟨hk, ho⟩
  · dsimp only
    obtain ⟨hkb, hob⟩ := isIPBlocked_preserves st a.ip nowMs hk ho
    split
    · exact ⟨hkb, hob⟩
    · next hblocked =>
        have hnone : lookupA (isIPBlocked st a.ip nowMs).2.blockedIPs a.ip = none :=
          isIPBlocked_false_none st a.ip nowMs hk (by simpa using hblocked)
        split
        · split
          · obtain ⟨hk2, ho2⟩ := setReq_preserves (isIPBlocked st a.ip nowMs).2 a.ip _
              hkb hob hnone
            exact blockIP_preserves cfg _ a.ip _ nowMs hk2 ho2
          · exact setReq_preserves (isIPBlocked st a.ip nowMs).2 a.ip _ hkb hob hnone
        · exact setReq_preserves (isIPBlocked st a.ip nowMs).2 a.ip _ hkb hob hnone

end RateLimitModule

open RateLimitModule in
/-- C7.  Starting from any state where no IP is in both tables (and each
table has JS-`Map` unique keys), each operation of the module — `analyze`,
`blockIP`, `unblockIP`, `cleanup` — preserves that disjointness; and when the
IP of a request is currently blocked, `analyze` leaves the rate table without
an entry for it (blocking deleted it and the early return adds none). -/
theorem C7_no_simultaneous_membership (cfg : RLConfig) (st : RLState) (a : Analysis)
    (nowMs : Nat) (ip reason : String) (hk : keysNodup st) (ho : noOverlap st) :
    (keysNodup (analyze cfg st a nowMs).2 ∧ noOverlap (analyze cfg st a nowMs).2)
    ∧ (keysNodup (blockIP cfg st ip reason nowMs)
       ∧ noOverlap (blockIP cfg st ip reason nowMs))
    ∧ (keysNodup (unblockIP st ip) ∧ noOverlap (unblockIP st ip))
    ∧ (keysNodup (cleanup cfg st nowMs) ∧ noOverlap (cleanup cfg st nowMs))
    ∧ ((isIPBlocked st a.ip nowMs).1 = true →
        lookupA (analyze cfg st a nowMs).2.requests a.ip = none) := by
  refine ⟨analyze_preserves cfg st a nowMs hk ho,
          blockIP_preserves cfg st ip reason nowMs hk ho, ?_, ?_, ?_⟩
  · refine ⟨⟨hk.1, nodup_keys_removeA _ _ hk.2⟩, ?_⟩
    intro ip2
    rcases ho ip2 with hn | hn
    · exact Or.inl hn
    · exact Or.inr (lookupA_removeA_none _ _ _ hn)
  · refine ⟨⟨nodup_keys_filter _ _ hk.1, nodup_keys_filter _ _ hk.2⟩, ?_⟩
    intro ip2
    rcases ho ip2 with hn | hn
    · exact Or.inl (lookupA_filter_none _ _ _ hn)
    · exact Or.inr (lookupA_filter_none _ _ _ hn)
  · intro hbl
    have hreqnone : lookupA st.requests a.ip = none := by
      unfold isIPBlocked at hbl
      rcases h : lookupA st.blockedIPs a.ip with _ | rec
      · rw [h] at hbl
        exact absurd hbl (by simp)
      · rcases ho a.ip with hn | hn
        · exact hn
        · rw [hn] at h
          exact absurd h (by simp)
    unfold analyze
    split
    · exact hreqnone
    · dsimp only
      split
      · rw [(isIPBlocked_state st a.ip nowMs).1]
        exact hreqnone
      · next hnb => exact absurd hbl (by simpa using hnb)

open RateLimitModule in
/-- C7 witness: the preservation applied to a one-request state. -/
theorem C7_no_simultaneous_membership_witness :
    keysNodup { requests := [("1.2.3.4", ⟨1, 0, 0⟩)] }
    ∧ noOverlap ({ requests := [("1.2.3.4", ⟨1, 0, 0⟩)] } : RLState)
    ∧ noOverlap (blockIP { ipBlockingEnabled := true }
        { requests := [("1.2.3.4", ⟨1, 0, 0⟩)] } "1.2.3.4" "test" 50) := by
  have hk : keysNodup ({ requests := [("1.2.3.4", ⟨1, 0, 0⟩)] } : RLState) := by
    constructor <;> simp
  have ho : noOverlap ({ requests := [("1.2.3.4", ⟨1, 0, 0⟩)] } : RLState) := by
    intro ip
    exact Or.inr rfl
  exact ⟨hk, ho,
    (C7_no_simultaneous_membership { ipBlockingEnabled := true }
      { requests := [("1.2.3.4", ⟨1, 0, 0⟩)] } {} 50 "1.2.3.4" "test" hk ho).2.1.2⟩

/-! ### C8: the scenario trace of spec §8.5 -/

/-- The scenario configuration: `max=2, windowMs=60000, maxViolations=2,
blockDuration=60000`, IP blocking enabled. -/
def rlCfg : RateLimitModule.RLConfig :=
  { enabled := true, windowMs := 60000, max := 2,
    ipBlockingEnabled := true, blockDuration := 60000, maxViolations := 2 }

/-- A request from the scenario IP. -/
def rlReq : Analysis := { ip := "1.2.3.4" }

/-- First window: three requests within 10 s. -/
def rlT1 : Option ModuleResult × RateLimitModule.RLState :=
  RateLimitModule.analyze rlCfg {} rlReq 0

def rlT2 : Option ModuleResult × RateLimitModule.RLState :=
  RateLimitModule.analyze rlCfg rlT1.2 rlReq 5000

def rlT3 : Option ModuleResult × RateLimitModule.RLState :=
  RateLimitModule.analyze rlCfg rlT2.2 rlReq 10000

/-- Second window (after the 60 s window expired): three more requests. -/
def rlT4 : Option ModuleResult × RateLimitModule.RLState :=
  RateLimitModule.analyze rlCfg rlT3.2 rlReq 70000

def rlT5 : Option ModuleResult × RateLimitModule.RLState :=
  RateLimitModule.analyze rlCfg rlT4.2 rlReq 70001

def rlT6 : Option ModuleResult × RateLimitModule.RLState :=
  RateLimitModule.analyze rlCfg rlT5.2 rlReq 70002

/-- A fourth request in the second window (second violation of that window). -/
def rlT7 : Option ModuleResult × RateLimitModule.RLState :=
  RateLimitModule.analyze rlCfg rlT6.2 rlReq 70003

/-- The next request while blocked. -/
def rlT8 : Option ModuleResult × RateLimitModule.RLState :=
  RateLimitModule.analyze rlCfg rlT7.2 rlReq 70004

/-- A request after `blockDuration` has elapsed (block set at 70003 for 60 s). -/
def rlT9 : Option ModuleResult × RateLimitModule.RLState :=
  RateLimitModule.analyze rlCfg rlT8.2 rlReq 130004

/-- C8 counterexample.  The first window behaves as claimed (null, null,
`rate-limit-exceeded` +5), but the window reset at 70000 also resets the
violation counter, so the breach of the second window yields
`rate-limit-exceeded` again and the block table stays empty — the claim's
"another breach → IP block engaged" is false on the code. -/
theorem C8_counterexample_no_block_after_second_window :
    rlT1.1 = none ∧ rlT2.1 = none
    ∧ (rlT3.1.map (fun m => (m.score, m.threats.map Threat.pattern)))
        = some (5, ["rate-limit-exceeded"])
    ∧ rlT4.1 = none ∧ rlT5.1 = none
    ∧ (rlT6.1.map (fun m => (m.score, m.threats.map Threat.pattern)))
        = some (5, ["rate-limit-exceeded"])
    ∧ rlT6.2.blockedIPs = [] := by
  refine ⟨by decide, by decide, by decide, by decide, by decide, by decide, by decide⟩

/-- `analyze` reads nothing of the record but its IP. -/
theorem analyze_ip_only (cfg : RateLimitModule.RLConfig) (st : RateLimitModule.RLState)
    (a b : Analysis) (nowMs : Nat) (h : a.ip = b.ip) :
    RateLimitModule.analyze cfg st a nowMs = RateLimitModule.analyze cfg st b nowMs := by
  unfold RateLimitModule.analyze
  rw [h]

/-- C8 amended.  Violations reset with the window, so the block is engaged
not by the second window's breach but by its second violation (the fourth
request of the window): that request returns `ip-blocked-violations` (+10)
and inserts the block entry (`blockedUntil = 130003`); the next request
yields `ip-blocked` (+10) regardless of the record's payload; and once
`blockDuration` has elapsed (`now > blockedUntil`) the IP is clear again. -/
theorem C8_block_on_second_violation_of_window :
    ((rlT7.1.map (fun m => (m.score, m.threats.map Threat.pattern)))
        = some (10, ["ip-blocked-violations"]))
    ∧ rlT7.2.blockedIPs = [("1.2.3.4", ⟨130003, "Rate limit violations exceeded", 70003⟩)]
    ∧ rlT7.2.requests = []
    ∧ (∀ b : Analysis, b.ip = "1.2.3.4" →
        ((RateLimitModule.analyze rlCfg rlT7.2 b 70004).1.map
          (fun m => (m.score, m.threats.map Threat.pattern)))
          = some (10, ["ip-blocked"]))
    ∧ rlT9.1 = none
    ∧ rlT9.2.blockedIPs = []
    ∧ (RateLimitModule.isIPBlocked rlT8.2 "1.2.3.4" 130004).1 = false := by
  refine ⟨by decide, by decide, by decide, ?_, by decide, by decide, by decide⟩
  intro b hb
  rw [analyze_ip_only rlCfg rlT7.2 b rlReq 70004 (by rw [hb]; rfl)]
  decide

/-- C8 amended witness: the payload-independence component applied to a
record that also carries a body. -/
theorem C8_block_on_second_violation_of_window_witness :
    (({ ip := "1.2.3.4", body := some (.str "hello world") } : Analysis).ip = "1.2.3.4")
    ∧ ((RateLimitModule.analyze rlCfg rlT7.2
          { ip := "1.2.3.4", body := some (.str "hello world") } 70004).1.map
        (fun m => (m.score, m.threats.map Threat.pattern)))
        = some (10, ["ip-blocked"]) :=
  ⟨rfl, C8_block_on_second_violation_of_window.2.2.2.1
    { ip := "1.2.3.4", body := some (.str "hello world") } rfl⟩

/-! ### C9: buffer caps in the adaptive learner -/

namespace AdaptiveLearning

/-- `n` successive `recordRequest` calls with the same record. -/
def recordIter (a : Analysis) : Nat → LearningData → LearningData
  | 0, d => d
  | n + 1, d => recordIter a n (recordRequest d a)

/-- A threat-bearing record grows the threat buffer by one per call — with
no cap. -/
theorem recordIter_threats_length (a : Analysis) (hth : a.threats ≠ []) :
    ∀ (n : Nat) (d : LearningData),
      (recordIter a n d).threats.length = d.threats.length + n := by
  intro n
  induction n with
  | zero => intro d; simp [recordIter]
  | succ k ih =>
      intro d
      rw [recordIter, ih]
      have hlen : (recordRequest d a).threats.length = d.threats.length + 1 := by
        unfold recordRequest
        have hne : a.threats.isEmpty = false := by
          rw [List.isEmpty_eq_false]
          exact hth
        simp [hne]
      rw [hlen]
      omega

end AdaptiveLearning

/-- A record carrying one threat. -/
def threatRecord : Analysis :=
  { threats := [⟨"xss", "javascript-url", "JavaScript URL scheme", 3, "javascript:x"⟩] }

open AdaptiveLearning in
/-- C9 counterexample.  After 10 001 `recordRequest` calls with a
threat-bearing record, the learner's threat buffer holds 10 001 entries:
`recordRequest` caps only `learningData.requests` (`slice(-10000)`), never
`learningData.threats`, so the claimed 10 000 cap on both ring buffers is
false. -/
theorem C9_counterexample_threat_buffer_uncapped :
    (recordIter threatRecord 10001 {}).threats.length = 10001
    ∧ ¬ ((recordIter threatRecord 10001 {}).threats.length ≤ 10000) := by
  have h := recordIter_threats_length threatRecord (by decide) 10001 {}
  constructor
  · simpa using h
  · simp only [h]
    omega

open AdaptiveLearning in
/-- C9 amended.  The request buffer never exceeds 10 000 entries after any
`recordRequest` call and eviction is FIFO (the kept entries are a tail of the
old buffer plus the new entry); the threat buffer is unbounded. -/
theorem C9_request_buffer_capped_fifo (d : LearningData) (a : Analysis)
    (h : d.requests.length ≤ 10000) :
    (recordRequest d a).requests.length ≤ 10000
    ∧ ∃ k, (recordRequest d a).requests = (d.requests ++ [toReqData a]).drop k := by
  unfold recordRequest
  by_cases hlen : (d.requests ++ [toReqData a]).length > 10000
  · simp only [hlen, if_pos]
    refine ⟨?_, ⟨_, rfl⟩⟩
    rw [List.length_drop]
    omega
  · simp only [hlen, reduceIte]
    refine ⟨?_, ⟨0, by simp⟩⟩
    rw [List.length_append] at hlen ⊢
    simpa using Nat.le_of_not_lt hlen

open AdaptiveLearning in
/-- C9 witness: the cap statement applied to an empty buffer. -/
theorem C9_request_buffer_capped_fifo_witness :
    ({} : LearningData).requests.length ≤ 10000
    ∧ ((recordRequest {} threatRecord).requests.length ≤ 10000
        ∧ ∃ k, (recordRequest {} threatRecord).requests
            = (({} : LearningData).requests ++ [toReqData threatRecord]).drop k) :=
  ⟨by decide, C9_request_buffer_capped_fifo {} threatRecord (by decide)⟩

/-! ### C10: the XSS module's regex cursors leak between calls -/

/-- A record whose path contains exactly one `javascript:` occurrence. -/
def jsRecord : Analysis := { path := "javascript:x" }

/-- C10.  The XSS module is NOT stateless across calls: its patterns carry
the `g` flag and `analyze` calls `pattern.test` without resetting
`lastIndex` (unlike `RuleEngine.evaluateRule`, which resets it).  On a
record matched by exactly one pattern, the first `analyze` returns a score
of 3 and advances that pattern's cursor past the match; the second
`analyze` on the same record finds nothing and returns `null`. -/
theorem C10_xss_analyze_stateful :
    ((XSSModule.analyze XSSModule.initStates jsRecord).1.map ModuleResult.score) = some 3
    ∧ (XSSModule.analyze (XSSModule.analyze XSSModule.initStates jsRecord).2 jsRecord).1
        = none
    ∧ (XSSModule.analyze XSSModule.initStates jsRecord).1
        ≠ (XSSModule.analyze (XSSModule.analyze XSSModule.initStates jsRecord).2 jsRecord).1
          := by
  refine ⟨by decide, by decide, by decide⟩

end NodeWaf
